import Mathlib

/-!
Verification development for the marketplace negotiation orchestrator.

The definitions below are a shallow embedding of the Python sources:
  models/negotiation_state.py  (FurnitureItem, Offer, NegotiationState)
  agents/buyer_agent.py        (BuyerAgent)
  agents/seller_agent.py       (SellerAgent)
  scalable_orchestrator.py     (ScalableMarketplaceOrchestrator)

Modelling conventions:
  - Python floats are modelled as rationals (ℚ); the algorithms use only
    +, *, /, min, max and comparisons, so the algebra is preserved.
  - Python dicts are modelled as association lists (`List (String × α)`)
    with lookup, insert-or-replace, and delete helpers.
  - `uuid.uuid4()` results are nondeterministic fresh names; each operation
    that draws one takes the drawn identifier as an explicit argument.
  - Methods that mutate `self` are modelled as functions returning the
    updated state (paired with the Python return value where there is one).
  - `print` calls, logging, thread scheduling and `time.sleep` are elided;
    the worker body `_run_negotiation` is modelled as the fuel-bounded loop
    `run_negotiation_loop` (each iteration of the Python `while` loop either
    sets a terminal result or increments the round counter, so
    `max_rounds` units of fuel are enough to reach the loop's exit).
  - Statements that a Python `raise` crosses the public boundary are
    modelled with `Except`; places where the Python code would raise
    `KeyError`/`AttributeError` on malformed states are marked in comments.
-/

/-- `models/negotiation_state.py`: `FurnitureType` enum. -/
inductive FurnitureType
  | COUCH
  | DINING_TABLE
  | BOOKSHELF
deriving DecidableEq

/-- `models/negotiation_state.py`: `FurnitureItem`. -/
structure FurnitureItem where
  name : String
  furniture_type : FurnitureType
  starting_price : ℚ
  condition : String := "used"
  description : String := ""
deriving DecidableEq

/-- `models/negotiation_state.py`: `Offer`. -/
structure Offer where
  price : ℚ
  message : String
  round_number : ℕ
  agent_type : String
deriving DecidableEq

/-- `models/negotiation_state.py`: `NegotiationResult` enum. -/
inductive NegotiationResult
  | DEAL_ACCEPTED
  | NO_DEAL
  | IN_PROGRESS
deriving DecidableEq

/-- `models/negotiation_state.py`: `NegotiationState`. -/
structure NegotiationState where
  item : FurnitureItem
  current_offer : Option Offer := none
  offers_history : List Offer := []
  round_number : ℕ := 0
  max_rounds : ℕ := 10
  result : NegotiationResult := NegotiationResult.IN_PROGRESS
  final_price : Option ℚ := none
deriving DecidableEq

/-- `NegotiationState.add_offer`: append to history, set current offer,
bump the round counter. -/
def NegotiationState.add_offer (st : NegotiationState) (offer : Offer) : NegotiationState :=
  { st with
    offers_history := st.offers_history ++ [offer]
    current_offer := some offer
    round_number := st.round_number + 1 }

/-- `NegotiationState.is_complete`:
`result != IN_PROGRESS or round_number >= max_rounds`. -/
def NegotiationState.is_complete (st : NegotiationState) : Bool :=
  decide (st.result ≠ NegotiationResult.IN_PROGRESS ∨ st.max_rounds ≤ st.round_number)

/-- A fresh `NegotiationState(item=item, max_rounds=m)` with the dataclass
defaults for every other field. -/
def init_negotiation_state (item : FurnitureItem) (m : ℕ) : NegotiationState :=
  { item := item
    current_offer := none
    offers_history := []
    round_number := 0
    max_rounds := m
    result := NegotiationResult.IN_PROGRESS
    final_price := none }

/-- `agents/buyer_agent.py`: `BuyerAgent.__init__` keeps a name, a
`budget_multiplier` (default 0.75) and `target_price = 0.6`.  The LLM and
conversation-memory fields of `BaseAgent` play no part in the decision
functions and are elided. -/
structure BuyerAgent where
  name : String
  budget_multiplier : ℚ := 75/100
  target_price : ℚ := 6/10
deriving DecidableEq

/-- `BuyerAgent.should_accept_offer`: accept iff the offer is within 10% of
the target price.  (`max_budget` is computed in the source but unused.) -/
def BuyerAgent.should_accept_offer (a : BuyerAgent) (current_offer item_price : ℚ) : Bool :=
  let target_price := item_price * a.target_price
  let _max_budget := item_price * a.budget_multiplier
  decide (current_offer ≤ target_price * (11/10))

/-- `BuyerAgent.get_walk_away_price`: `item_price * budget_multiplier`. -/
def BuyerAgent.get_walk_away_price (a : BuyerAgent) (item_price : ℚ) : ℚ :=
  item_price * a.budget_multiplier

/-- `agents/seller_agent.py`: `SellerAgent.__init__` keeps a name, a
`minimum_multiplier` (default 0.55) and `target_price = 0.75`. -/
structure SellerAgent where
  name : String
  minimum_multiplier : ℚ := 55/100
  target_price : ℚ := 75/100
deriving DecidableEq

/-- `SellerAgent.should_accept_offer`: accept iff the offer is at least 90%
of the target price.  (`minimum_price` is computed in the source but
unused.) -/
def SellerAgent.should_accept_offer (a : SellerAgent) (current_offer item_price : ℚ) : Bool :=
  let target_price := item_price * a.target_price
  let _minimum_price := item_price * a.minimum_multiplier
  decide (target_price * (9/10) ≤ current_offer)

/-- `SellerAgent.get_walk_away_price`: `item_price * minimum_multiplier`. -/
def SellerAgent.get_walk_away_price (a : SellerAgent) (item_price : ℚ) : ℚ :=
  item_price * a.minimum_multiplier

/-- `scalable_orchestrator.py`, `_execute_negotiation_round`: one round of
the turn-taking protocol.  Even round index: the buyer opens at 60% of the
starting price (round 0) or counters with
`min(last_seller_offer * 1.1, buyer_walk_away)`, then the seller's
acceptance test runs.  Odd round index: the seller first re-checks the
buyer's standing offer, otherwise counters with
`max(last_buyer_offer * 1.15, seller_walk_away)`, then the buyer's
acceptance test runs.  (The f-string offer messages are replaced by their
constant prefixes.) -/
def execute_negotiation_round (bA : BuyerAgent) (sA : SellerAgent)
    (st : NegotiationState) : NegotiationState :=
  if st.round_number % 2 = 0 then
    let offer_price : ℚ :=
      if st.round_number = 0 then
        st.item.starting_price * (6/10)
      else
        let last_seller_offer : ℚ :=
          match st.current_offer with
          | some o => o.price
          | none => st.item.starting_price
        min (last_seller_offer * (11/10)) (bA.get_walk_away_price st.item.starting_price)
    let offer : Offer :=
      { price := offer_price
        message := "I can offer"
        round_number := st.round_number + 1
        agent_type := "buyer" }
    let st1 := st.add_offer offer
    if sA.should_accept_offer offer_price st1.item.starting_price then
      { st1 with result := NegotiationResult.DEAL_ACCEPTED, final_price := some offer_price }
    else
      st1
  else
    match st.current_offer with
    | none => st   -- the Python code dereferences `state.current_offer.price`
                   -- here and would raise; unreachable from a fresh state
    | some cur =>
      let last_buyer_offer := cur.price
      if sA.should_accept_offer last_buyer_offer st.item.starting_price then
        { st with result := NegotiationResult.DEAL_ACCEPTED, final_price := some last_buyer_offer }
      else
        let counter_price : ℚ :=
          max (last_buyer_offer * (23/20)) (sA.get_walk_away_price st.item.starting_price)
        let offer : Offer :=
          { price := counter_price
            message := "I could consider"
            round_number := st.round_number + 1
            agent_type := "seller" }
        let st1 := st.add_offer offer
        if bA.should_accept_offer counter_price st1.item.starting_price then
          { st1 with result := NegotiationResult.DEAL_ACCEPTED, final_price := some counter_price }
        else
          st1

/-- The `while not negotiation.negotiation_state.is_complete()` loop of
`_run_negotiation`, with explicit fuel (see the header note). -/
def run_negotiation_loop (bA : BuyerAgent) (sA : SellerAgent) :
    ℕ → NegotiationState → NegotiationState
  | 0, st => st
  | Nat.succ fuel, st =>
    if st.is_complete then st
    else run_negotiation_loop bA sA fuel (execute_negotiation_round bA sA st)

/-- Prices of the buyer's offers in a history, in round order. -/
def buyer_prices (h : List Offer) : List ℚ :=
  (h.filter (fun o => o.agent_type = "buyer")).map (fun o => o.price)

/-- Prices of the seller's offers in a history, in round order. -/
def seller_prices (h : List Offer) : List ℚ :=
  (h.filter (fun o => o.agent_type = "seller")).map (fun o => o.price)

/-- A standard item with asking price 1000, used for concrete sessions. -/
def item1000 : FurnitureItem :=
  { name := "Vintage Leather Couch"
    furniture_type := FurnitureType.COUCH
    starting_price := 1000
    condition := "good"
    description := "" }

/-- Buyer with walk-away price 650 (budget multiplier 0.65). -/
def buyer65 : BuyerAgent := { name := "Buyer65", budget_multiplier := 65/100 }

/-- Buyer with walk-away price 500 (budget multiplier 0.5). -/
def buyer50 : BuyerAgent := { name := "Buyer50", budget_multiplier := 50/100 }

/-- Buyer with walk-away price 850 (budget multiplier 0.85). -/
def buyer85 : BuyerAgent := { name := "Buyer85", budget_multiplier := 85/100 }

/-- Seller with walk-away price 550 (minimum multiplier 0.55). -/
def seller55 : SellerAgent := { name := "Seller55", minimum_multiplier := 55/100 }

/-- Seller with walk-away price 700 (minimum multiplier 0.7). -/
def seller70 : SellerAgent := { name := "Seller70", minimum_multiplier := 70/100 }

/-- Seller with walk-away price 900 (minimum multiplier 0.9). -/
def seller90 : SellerAgent := { name := "Seller90", minimum_multiplier := 90/100 }

/-- Full session: buyer walk-away 650, seller walk-away 550, asking 1000. -/
def run_session_65_55 : NegotiationState :=
  run_negotiation_loop buyer65 seller55 8 (init_negotiation_state item1000 8)

/-- Full session: buyer walk-away 500, seller walk-away 550, asking 1000. -/
def run_session_50_55 : NegotiationState :=
  run_negotiation_loop buyer50 seller55 8 (init_negotiation_state item1000 8)

/-- Full session: buyer walk-away 500, seller walk-away 700, asking 1000. -/
def run_session_50_70 : NegotiationState :=
  run_negotiation_loop buyer50 seller70 8 (init_negotiation_state item1000 8)

/-- Full session: buyer walk-away 850, seller walk-away 900, asking 1000. -/
def run_session_85_90 : NegotiationState :=
  run_negotiation_loop buyer85 seller90 8 (init_negotiation_state item1000 8)

/-- The closed-form price recurrence realised by `execute_negotiation_round`
from a fresh state: history index 0 is the buyer's opening offer at 60% of
the starting price `P`; an odd index `n+1` (a seller counter) is
`max(previous * 1.15, Ws)`; an even index `n+1 ≥ 2` (a buyer counter) is
`min(previous * 1.1, Wb)`, where `Wb`/`Ws` are the two walk-away prices. -/
def price_at (Wb Ws P : ℚ) : ℕ → ℚ
  | 0 => P * (6/10)
  | n+1 =>
    if n % 2 = 0 then max (price_at Wb Ws P n * (23/20)) Ws
    else min (price_at Wb Ws P n * (11/10)) Wb

/-- The offer placed at history index `i` of a session run from a fresh
state: buyer offers sit at even indices, seller offers at odd ones. -/
def offer_at (Wb Ws P : ℚ) (i : ℕ) : Offer :=
  if i % 2 = 0 then
    { price := price_at Wb Ws P i
      message := "I can offer"
      round_number := i + 1
      agent_type := "buyer" }
  else
    { price := price_at Wb Ws P i
      message := "I could consider"
      round_number := i + 1
      agent_type := "seller" }

/-- Invariant of the negotiation loop: the state belongs to the given item,
its history is exactly the deterministic offer sequence `offer_at` up to the
round counter, and `current_offer` mirrors the last history entry. -/
def run_inv (bA : BuyerAgent) (sA : SellerAgent) (item : FurnitureItem)
    (st : NegotiationState) : Prop :=
  st.item = item ∧
  st.offers_history = (List.range st.round_number).map
    (offer_at (bA.get_walk_away_price item.starting_price)
      (sA.get_walk_away_price item.starting_price) item.starting_price) ∧
  st.current_offer = st.offers_history.getLast?

/-- States on which the round function can be iterated safely: after the
first round there is always a standing current offer (the Python code
dereferences `state.current_offer.price` on odd rounds). -/
def wf_state (st : NegotiationState) : Prop :=
  st.round_number ≠ 0 → st.current_offer.isSome = true

/-- The offer history produced by running a fresh session (the worker body
of `_run_negotiation` applied to the state built by `start_negotiation`). -/
def session_history (bA : BuyerAgent) (sA : SellerAgent) (item : FurnitureItem)
    (m fuel : ℕ) : List Offer :=
  (run_negotiation_loop bA sA fuel (init_negotiation_state item m)).offers_history

/-- Acceptance invariant: whenever a state records an accepted deal, its
final price passed one of the two agents' acceptance tests (against the
item's starting price). -/
def accept_inv (bA : BuyerAgent) (sA : SellerAgent) (st : NegotiationState) : Prop :=
  st.result = NegotiationResult.DEAL_ACCEPTED →
    ∃ p, st.final_price = some p ∧
      (sA.should_accept_offer p st.item.starting_price = true ∨
       bA.should_accept_offer p st.item.starting_price = true)

/-! ### The scalable orchestrator (`scalable_orchestrator.py`)

Python dicts become association lists with the three helpers below;
`uuid.uuid4()` draws become explicit arguments; wall-clock fields
(`created_at`, `expiry_time`, `expires_at`) and the logger/executor/lock
fields are elided.  Each method returns its updated orchestrator state. -/

/-- Lookup in an association list (Python `d[k]` / `k in d`). -/
def assoc_get {α : Type} (m : List (String × α)) (k : String) : Option α :=
  match m with
  | [] => none
  | (k2, v) :: rest => if k2 = k then some v else assoc_get rest k

/-- Insert-or-replace (Python `d[k] = v`). -/
def assoc_set {α : Type} (m : List (String × α)) (k : String) (v : α) :
    List (String × α) :=
  match m with
  | [] => [(k, v)]
  | (k2, v2) :: rest => if k2 = k then (k, v) :: rest else (k2, v2) :: assoc_set rest k v

/-- Delete (Python `del d[k]`; keys are unique by construction). -/
def assoc_erase {α : Type} (m : List (String × α)) (k : String) : List (String × α) :=
  match m with
  | [] => []
  | (k2, v) :: rest => if k2 = k then assoc_erase rest k else (k2, v) :: assoc_erase rest k

/-- `ListingStatus` enum. -/
inductive ListingStatus
  | ACTIVE
  | NEGOTIATING
  | PENDING_CONFIRMATION
  | SOLD
  | EXPIRED
  | CANCELLED
deriving DecidableEq

/-- `UserRole` enum. -/
inductive UserRole
  | BUYER
  | SELLER
deriving DecidableEq

/-- `UserProfile` dataclass (agent preference fields that no operation
reads are elided). -/
structure UserProfile where
  user_id : String
  name : String
  role : UserRole
  agent_personality : String
  budget_range : ℚ × ℚ := (0, 10000)
deriving DecidableEq

/-- `ItemListing` dataclass. -/
structure ItemListing where
  listing_id : String
  seller_user_id : String
  item : FurnitureItem
  asking_price : ℚ
  minimum_price : ℚ
  listing_status : ListingStatus := ListingStatus.ACTIVE
  interested_buyers : List String := []
  active_negotiations : List (String × String) := []
deriving DecidableEq

/-- `ActiveNegotiation` dataclass. -/
structure ActiveNegotiation where
  negotiation_id : String
  listing_id : String
  buyer_user_id : String
  seller_user_id : String
  buyer_agent : BuyerAgent
  seller_agent : SellerAgent
  negotiation_state : NegotiationState
  status : String := "active"
deriving DecidableEq

/-- `PendingDeal` dataclass (`agreed_price` stores
`negotiation_state.final_price`, an `Optional[float]`, unchanged). -/
structure PendingDeal where
  deal_id : String
  negotiation_id : String
  listing_id : String
  buyer_user_id : String
  seller_user_id : String
  agreed_price : Option ℚ
  seller_confirmed : Bool := false
  buyer_confirmed : Bool := false
deriving DecidableEq

/-- The mutable state of `ScalableMarketplaceOrchestrator`. -/
structure Orchestrator where
  max_concurrent_negotiations : ℕ := 100
  users : List (String × UserProfile) := []
  listings : List (String × ItemListing) := []
  negotiations : List (String × ActiveNegotiation) := []
  pending_deals : List (String × PendingDeal) := []
deriving DecidableEq

/-- `register_user` (lines 140-152): always succeeds. -/
def register_user (s : Orchestrator) (user_id : String) (name : String) (role : UserRole)
    (agent_personality : String) (budget_range : ℚ × ℚ) : String × Orchestrator :=
  let user : UserProfile :=
    { user_id := user_id, name := name, role := role,
      agent_personality := agent_personality, budget_range := budget_range }
  (user_id, { s with users := assoc_set s.users user_id user })

/-- `create_listing` (lines 154-176): raises `ValueError` — modelled as
`Except.error` — when the seller is unknown or not a SELLER; the unused
`duration_days` only feeds the elided expiry timestamp. -/
def create_listing (s : Orchestrator) (listing_id : String) (seller_user_id : String)
    (item : FurnitureItem) (asking_price minimum_price : ℚ) (_duration_days : ℕ) :
    Except String (String × Orchestrator) :=
  match assoc_get s.users seller_user_id with
  | none => Except.error "Seller not found"
  | some u =>
    if u.role ≠ UserRole.SELLER then Except.error "User is not registered as a seller"
    else
      let listing : ItemListing :=
        { listing_id := listing_id, seller_user_id := seller_user_id, item := item,
          asking_price := asking_price, minimum_price := minimum_price }
      Except.ok (listing_id, { s with listings := assoc_set s.listings listing_id listing })

/-- `express_interest` (lines 178-198); `set.add` becomes append-if-new. -/
def express_interest (s : Orchestrator) (buyer_user_id listing_id : String) :
    Bool × Orchestrator :=
  match assoc_get s.users buyer_user_id, assoc_get s.listings listing_id with
  | some buyer, some listing =>
    if buyer.role ≠ UserRole.BUYER then (false, s)
    else if listing.listing_status ≠ ListingStatus.ACTIVE then (false, s)
    else if (assoc_get listing.active_negotiations buyer_user_id).isSome then (false, s)
    else
      let ib2 :=
        if buyer_user_id ∈ listing.interested_buyers then listing.interested_buyers
        else listing.interested_buyers ++ [buyer_user_id]
      let listing2 := { listing with interested_buyers := ib2 }
      (true, { s with listings := assoc_set s.listings listing_id listing2 })
  | _, _ => (false, s)

/-- The personality → budget-multiplier table of `_create_buyer_agent`. -/
def budget_multipliers : List (String × ℚ) :=
  [("Quick Cash Buyer", 85/100), ("Budget Shopper", 65/100), ("Value Hunter", 75/100),
   ("Premium Buyer", 95/100), ("Bargain Hunter", 60/100), ("Quality Seeker", 90/100),
   ("Impulse Buyer", 80/100), ("Careful Buyer", 70/100), ("Fair Deal Buyer", 78/100),
   ("Flexible Buyer", 82/100)]

/-- `_create_buyer_agent` (lines 249-272); the agent name's apostrophe is
elided; Python would raise `ZeroDivisionError` at `asking_price = 0`,
where ℚ division yields 0. -/
def create_buyer_agent (user : UserProfile) (asking_price : ℚ) : BuyerAgent :=
  let multiplier := (assoc_get budget_multipliers user.agent_personality).getD (75/100)
  let max_budget := min user.budget_range.2 (asking_price * multiplier)
  let actual_multiplier := max_budget / asking_price
  { name := user.name ++ " Agent", budget_multiplier := actual_multiplier }

/-- `_create_seller_agent` (lines 274-278). -/
def create_seller_agent (user : UserProfile) (minimum_price asking_price : ℚ) : SellerAgent :=
  let minimum_multiplier := minimum_price / asking_price
  { name := user.name ++ " Agent", minimum_multiplier := minimum_multiplier }

/-- `start_negotiation` (lines 200-247): cap check, membership checks,
listing ACTIVE check, per-(buyer, listing) exclusivity check; on success
the session is registered in both maps.  The background submission of
`_run_negotiation` is modelled separately by `run_negotiation_task`. -/
def start_negotiation (s : Orchestrator) (negotiation_id : String)
    (buyer_user_id listing_id : String) : Option String × Orchestrator :=
  if s.max_concurrent_negotiations ≤ s.negotiations.length then (none, s)
  else
    match assoc_get s.users buyer_user_id, assoc_get s.listings listing_id with
    | some buyer, some listing =>
      match assoc_get s.users listing.seller_user_id with
      | none => (none, s)   -- Python raises KeyError here
      | some seller =>
        if listing.listing_status ≠ ListingStatus.ACTIVE then (none, s)
        else if (assoc_get listing.active_negotiations buyer_user_id).isSome then (none, s)
        else
          let buyer_agent := create_buyer_agent buyer listing.asking_price
          let seller_agent := create_seller_agent seller listing.minimum_price listing.asking_price
          let negotiation_state := init_negotiation_state listing.item 8
          let negotiation : ActiveNegotiation :=
            { negotiation_id := negotiation_id, listing_id := listing_id,
              buyer_user_id := buyer_user_id, seller_user_id := listing.seller_user_id,
              buyer_agent := buyer_agent, seller_agent := seller_agent,
              negotiation_state := negotiation_state }
          let an2 := assoc_set listing.active_negotiations buyer_user_id negotiation_id
          let listing2 := { listing with active_negotiations := an2 }
          let s2 :=
            { s with
              negotiations := assoc_set s.negotiations negotiation_id negotiation
              listings := assoc_set s.listings listing_id listing2 }
          (some negotiation_id, s2)
    | _, _ => (none, s)

/-- `_create_pending_deal` (lines 364-384): registers the deal, marks the
session "completed" (it stays in the negotiations map), and sets the
listing PENDING_CONFIRMATION — with no check of the listing's current
status and no removal of the buyer's active-negotiations entry. -/
def create_pending_deal (s : Orchestrator) (deal_id : String)
    (negotiation : ActiveNegotiation) : Orchestrator :=
  let deal : PendingDeal :=
    { deal_id := deal_id, negotiation_id := negotiation.negotiation_id,
      listing_id := negotiation.listing_id, buyer_user_id := negotiation.buyer_user_id,
      seller_user_id := negotiation.seller_user_id,
      agreed_price := negotiation.negotiation_state.final_price }
  let negotiation2 := { negotiation with status := "completed" }
  let s1 :=
    { s with
      pending_deals := assoc_set s.pending_deals deal_id deal
      negotiations := assoc_set s.negotiations negotiation.negotiation_id negotiation2 }
  match assoc_get s1.listings negotiation.listing_id with
  | none => s1   -- Python raises KeyError here; the mutations above persist
  | some listing =>
    let listing2 := { listing with listing_status := ListingStatus.PENDING_CONFIRMATION }
    { s1 with listings := assoc_set s1.listings negotiation.listing_id listing2 }

/-- `_finalize_failed_negotiation` (lines 386-395): marks the session
"failed" (it stays in the negotiations map) and removes the buyer's entry
from the listing's active-negotiations map. -/
def finalize_failed_negotiation (s : Orchestrator) (negotiation : ActiveNegotiation) :
    Orchestrator :=
  let negotiation2 := { negotiation with status := "failed" }
  let s1 := { s with negotiations := assoc_set s.negotiations negotiation.negotiation_id negotiation2 }
  match assoc_get s1.listings negotiation.listing_id with
  | none => s1   -- Python raises KeyError here
  | some listing =>
    if (assoc_get listing.active_negotiations negotiation.buyer_user_id).isSome then
      let an2 := assoc_erase listing.active_negotiations negotiation.buyer_user_id
      let listing2 := { listing with active_negotiations := an2 }
      { s1 with listings := assoc_set s1.listings negotiation.listing_id listing2 }
    else s1

/-- `_finalize_successful_deal` (lines 419-429): listing → SOLD, ledger
entry removed; nothing else is touched. -/
def finalize_successful_deal (s : Orchestrator) (deal : PendingDeal) : Orchestrator :=
  match assoc_get s.listings deal.listing_id with
  | none => s   -- Python raises KeyError before deleting the ledger entry
  | some listing =>
    let listing2 := { listing with listing_status := ListingStatus.SOLD }
    { s with
      listings := assoc_set s.listings deal.listing_id listing2
      pending_deals := assoc_erase s.pending_deals deal.deal_id }

/-- `_cancel_deal` (lines 431-437): listing back to ACTIVE, ledger entry
removed. -/
def cancel_deal (s : Orchestrator) (deal : PendingDeal) : Orchestrator :=
  match assoc_get s.listings deal.listing_id with
  | none => s   -- Python raises KeyError before deleting the ledger entry
  | some listing =>
    let listing2 := { listing with listing_status := ListingStatus.ACTIVE }
    { s with
      listings := assoc_set s.listings deal.listing_id listing2
      pending_deals := assoc_erase s.pending_deals deal.deal_id }

/-- `confirm_deal` (lines 397-417). -/
def confirm_deal (s : Orchestrator) (user_id deal_id : String) (accept : Bool) :
    Bool × Orchestrator :=
  match assoc_get s.pending_deals deal_id with
  | none => (false, s)
  | some deal =>
    match (if user_id = deal.buyer_user_id then some { deal with buyer_confirmed := accept }
           else if user_id = deal.seller_user_id then
             some { deal with seller_confirmed := accept }
           else none) with
    | none => (false, s)
    | some deal2 =>
      let s1 := { s with pending_deals := assoc_set s.pending_deals deal_id deal2 }
      if deal2.buyer_confirmed && deal2.seller_confirmed then
        (true, finalize_successful_deal s1 deal2)
      else if accept = false then (true, cancel_deal s1 deal2)
      else (true, s1)

/-- `_run_negotiation` (lines 280-302), as a worker transition: run the
session's loop to completion, then hand off to `_create_pending_deal` on
DEAL_ACCEPTED and to `_finalize_failed_negotiation` otherwise. -/
def run_negotiation_task (s : Orchestrator) (negotiation_id deal_id : String) : Orchestrator :=
  match assoc_get s.negotiations negotiation_id with
  | none => s   -- Python raises KeyError here
  | some negotiation =>
    let st2 := run_negotiation_loop negotiation.buyer_agent negotiation.seller_agent
      negotiation.negotiation_state.max_rounds negotiation.negotiation_state
    let negotiation2 := { negotiation with negotiation_state := st2 }
    let s1 := { s with negotiations := assoc_set s.negotiations negotiation.negotiation_id negotiation2 }
    if st2.result = NegotiationResult.DEAL_ACCEPTED then
      create_pending_deal s1 deal_id negotiation2
    else
      finalize_failed_negotiation s1 negotiation2

/-! ### Concrete marketplace states for the orchestrator-level verdicts -/

/-- A registered buyer. -/
def user_buyer1 : UserProfile :=
  { user_id := "b1", name := "Bea", role := UserRole.BUYER, agent_personality := "Value Hunter" }

/-- A second registered buyer. -/
def user_buyer2 : UserProfile :=
  { user_id := "b2", name := "Bob", role := UserRole.BUYER, agent_personality := "Budget Shopper" }

/-- A registered seller. -/
def user_seller1 : UserProfile :=
  { user_id := "sel", name := "Sal", role := UserRole.SELLER, agent_personality := "Seller" }

/-- A session state that ended with an accepted deal at 850. -/
def accepted_state_850 : NegotiationState :=
  { item := item1000, current_offer := none, offers_history := [], round_number := 4,
    max_rounds := 8, result := NegotiationResult.DEAL_ACCEPTED, final_price := some 850 }

/-- A session state that ended with an accepted deal at 860. -/
def accepted_state_860 : NegotiationState :=
  { item := item1000, current_offer := none, offers_history := [], round_number := 6,
    max_rounds := 8, result := NegotiationResult.DEAL_ACCEPTED, final_price := some 860 }

/-- Buyer b1's session on listing L1, ended in agreement at 850. -/
def neg_n1 : ActiveNegotiation :=
  { negotiation_id := "n1", listing_id := "L1", buyer_user_id := "b1", seller_user_id := "sel",
    buyer_agent := buyer85, seller_agent := seller55, negotiation_state := accepted_state_850 }

/-- Buyer b2's session on listing L1, ended in agreement at 860. -/
def neg_n2 : ActiveNegotiation :=
  { negotiation_id := "n2", listing_id := "L1", buyer_user_id := "b2", seller_user_id := "sel",
    buyer_agent := buyer85, seller_agent := seller55, negotiation_state := accepted_state_860 }

/-- Listing L1 with two recorded sessions, awaiting confirmation of the
first agreement. -/
def listing_l1 : ItemListing :=
  { listing_id := "L1", seller_user_id := "sel", item := item1000, asking_price := 1000,
    minimum_price := 550, listing_status := ListingStatus.PENDING_CONFIRMATION,
    active_negotiations := [("b1", "n1"), ("b2", "n2")] }

/-- The pending deal of session n1. -/
def deal_d1 : PendingDeal :=
  { deal_id := "d1", negotiation_id := "n1", listing_id := "L1", buyer_user_id := "b1",
    seller_user_id := "sel", agreed_price := some 850 }

/-- The pending deal of session n2. -/
def deal_d2 : PendingDeal :=
  { deal_id := "d2", negotiation_id := "n2", listing_id := "L1", buyer_user_id := "b2",
    seller_user_id := "sel", agreed_price := some 860 }

/-- Marketplace with two pending deals on the same listing, both awaiting
confirmation. -/
def orch_c3 : Orchestrator :=
  { max_concurrent_negotiations := 100
    users := [("b1", user_buyer1), ("b2", user_buyer2), ("sel", user_seller1)]
    listings := [("L1", listing_l1)]
    negotiations := [("n1", { neg_n1 with status := "completed" }),
                     ("n2", { neg_n2 with status := "completed" })]
    pending_deals := [("d1", deal_d1), ("d2", deal_d2)] }

/-- `orch_c3` after both parties of deal d1 confirm. -/
def orch_c3_after : Orchestrator :=
  (confirm_deal (confirm_deal orch_c3 "b1" "d1" true).2 "sel" "d1" true).2

/-- Marketplace in which deal d1 is pending on L1 and session n2 on the
same listing has just reached agreement. -/
def orch_c8 : Orchestrator :=
  { max_concurrent_negotiations := 100
    users := [("b1", user_buyer1), ("b2", user_buyer2), ("sel", user_seller1)]
    listings := [("L1", listing_l1)]
    negotiations := [("n1", { neg_n1 with status := "completed" }), ("n2", neg_n2)]
    pending_deals := [("d1", deal_d1)] }

/-- `orch_c8` after the worker of session n2 hands its agreement off. -/
def orch_c8_after : Orchestrator := create_pending_deal orch_c8 "d2" neg_n2

/-- Marketplace with two just-terminated sessions not yet handed off. -/
def orch_c9 : Orchestrator :=
  { max_concurrent_negotiations := 100
    users := [("b1", user_buyer1), ("b2", user_buyer2), ("sel", user_seller1)]
    listings := [("L1", listing_l1)]
    negotiations := [("n1", neg_n1), ("n2", neg_n2)]
    pending_deals := [] }

/-- `orch_c9` after session n1 is handed off as a pending deal. -/
def orch_c9_completed : Orchestrator := create_pending_deal orch_c9 "d1" neg_n1

/-- `orch_c9` after session n2 is finalized as failed. -/
def orch_c9_failed : Orchestrator := finalize_failed_negotiation orch_c9 neg_n2

/-- Marketplace with a single registered buyer (no sellers, no deals). -/
def orch_c6 : Orchestrator :=
  { max_concurrent_negotiations := 100, users := [("b1", user_buyer1)] }

/-- Marketplace whose concurrency cap is 0 (already saturated). -/
def orch_c7 : Orchestrator :=
  { max_concurrent_negotiations := 0, users := [("sel", user_seller1)] }

/-- The listing created by `create_listing` on `orch_c7`. -/
def listing_l9 : ItemListing :=
  { listing_id := "L9", seller_user_id := "sel", item := item1000, asking_price := 1000,
    minimum_price := 550 }

/-- `orch_c7` with listing L9 registered. -/
def orch_c7_listed : Orchestrator := { orch_c7 with listings := [("L9", listing_l9)] }

/-- A pending deal whose seller has already confirmed. -/
def deal_d3 : PendingDeal := { deal_d1 with deal_id := "d3", seller_confirmed := true }

/-- Marketplace whose ledger holds only `deal_d3`, awaiting the buyer. -/
def orch_c4 : Orchestrator := { orch_c3 with pending_deals := [("d3", deal_d3)] }

/-- An ACTIVE listing that already records a session for buyer b1. -/
def listing_active_c6 : ItemListing :=
  { listing_id := "LA", seller_user_id := "sel", item := item1000, asking_price := 1000,
    minimum_price := 550, active_negotiations := [("b1", "n1")] }

/-- An expired (non-ACTIVE) listing. -/
def listing_inactive_c6 : ItemListing :=
  { listing_id := "LN", seller_user_id := "sel", item := item1000, asking_price := 1000,
    minimum_price := 550, listing_status := ListingStatus.EXPIRED }

/-- Marketplace exercising every validation failure: a buyer and a seller,
an ACTIVE listing with a recorded session, an expired listing, one pending
deal, and a concurrency cap of 0 (already saturated). -/
def orch_c6b : Orchestrator :=
  { max_concurrent_negotiations := 0
    users := [("b1", user_buyer1), ("sel", user_seller1)]
    listings := [("LA", listing_active_c6), ("LN", listing_inactive_c6)]
    pending_deals := [("d1", deal_d1)] }

/-! ### Generic helper lemmas -/

theorem offer_at_price (Wb Ws P : ℚ) (i : ℕ) :
    (offer_at Wb Ws P i).price = price_at Wb Ws P i := by
  unfold offer_at
  split <;> rfl

theorem offer_at_agent_type (Wb Ws P : ℚ) (i : ℕ) :
    (offer_at Wb Ws P i).agent_type = (if i % 2 = 0 then "buyer" else "seller") := by
  unfold offer_at
  split <;> simp_all

theorem getLast_range_map {α : Type} (f : ℕ → α) (n : ℕ) :
    ((List.range n).map f).getLast? = (if n = 0 then none else some (f (n - 1))) := by
  cases n with
  | zero => simp
  | succ m => simp [List.range_succ]

theorem step_item (bA : BuyerAgent) (sA : SellerAgent) (st : NegotiationState) :
    (execute_negotiation_round bA sA st).item = st.item := by
  unfold execute_negotiation_round NegotiationState.add_offer
  dsimp only
  repeat' split
  all_goals rfl

theorem step_max_rounds (bA : BuyerAgent) (sA : SellerAgent) (st : NegotiationState) :
    (execute_negotiation_round bA sA st).max_rounds = st.max_rounds := by
  unfold execute_negotiation_round NegotiationState.add_offer
  dsimp only
  repeat' split
  all_goals rfl

theorem run_inv_add_offer (bA : BuyerAgent) (sA : SellerAgent) (item : FurnitureItem)
    (st : NegotiationState) (o : Offer) (h : run_inv bA sA item st)
    (ho : o = offer_at (bA.get_walk_away_price item.starting_price)
      (sA.get_walk_away_price item.starting_price) item.starting_price st.round_number) :
    run_inv bA sA item (st.add_offer o) := by
  obtain ⟨hitem, hhist, hcur⟩ := h
  refine ⟨hitem, ?_, ?_⟩
  · show st.offers_history ++ [o] = (List.range (st.round_number + 1)).map _
    rw [hhist, ho, List.range_succ, List.map_append, List.map_singleton]
  · show some o = (st.offers_history ++ [o]).getLast?
    rw [List.getLast?_concat]

theorem run_inv_set_result (bA : BuyerAgent) (sA : SellerAgent) (item : FurnitureItem)
    (st : NegotiationState) (r : NegotiationResult) (p : Option ℚ)
    (h : run_inv bA sA item st) :
    run_inv bA sA item { st with result := r, final_price := p } := h

theorem run_inv_current_offer (bA : BuyerAgent) (sA : SellerAgent) (item : FurnitureItem)
    (st : NegotiationState) (m : ℕ) (h : run_inv bA sA item st)
    (hm : st.round_number = m + 1) :
    st.current_offer = some (offer_at (bA.get_walk_away_price item.starting_price)
      (sA.get_walk_away_price item.starting_price) item.starting_price m) := by
  obtain ⟨hitem, hhist, hcur⟩ := h
  rw [hcur, hhist, getLast_range_map, hm]
  simp

theorem run_inv_step (bA : BuyerAgent) (sA : SellerAgent) (item : FurnitureItem)
    (st : NegotiationState) (h : run_inv bA sA item st) :
    run_inv bA sA item (execute_negotiation_round bA sA st) := by
  have hitem := h.1
  unfold execute_negotiation_round
  by_cases hpar : st.round_number % 2 = 0
  · rw [if_pos hpar]
    by_cases h0 : st.round_number = 0
    · dsimp only
      rw [if_pos h0]
      have ho :
          ({ price := st.item.starting_price * (6/10),
             message := "I can offer",
             round_number := st.round_number + 1,
             agent_type := "buyer" } : Offer) =
          offer_at (bA.get_walk_away_price item.starting_price)
            (sA.get_walk_away_price item.starting_price) item.starting_price
            st.round_number := by
        rw [h0, hitem]
        simp [offer_at, price_at]
      split
      · exact run_inv_set_result _ _ _ _ _ _ (run_inv_add_offer _ _ _ _ _ h ho)
      · exact run_inv_add_offer _ _ _ _ _ h ho
    · obtain ⟨m, hm⟩ : ∃ m, st.round_number = m + 1 := ⟨st.round_number - 1, by omega⟩
      have hc := run_inv_current_offer bA sA item st m h hm
      dsimp only
      rw [if_neg h0, hc]
      dsimp only
      have hm1 : m % 2 = 1 := by omega
      have ho :
          ({ price := min ((offer_at (bA.get_walk_away_price item.starting_price)
               (sA.get_walk_away_price item.starting_price) item.starting_price m).price *
               (11/10)) (bA.get_walk_away_price st.item.starting_price),
             message := "I can offer",
             round_number := st.round_number + 1,
             agent_type := "buyer" } : Offer) =
          offer_at (bA.get_walk_away_price item.starting_price)
            (sA.get_walk_away_price item.starting_price) item.starting_price
            st.round_number := by
        rw [hitem, offer_at_price, hm]
        simp [offer_at, price_at, hm1, Nat.succ_mod_two_eq_zero_iff.2 hm1]
      split
      · exact run_inv_set_result _ _ _ _ _ _ (run_inv_add_offer _ _ _ _ _ h ho)
      · exact run_inv_add_offer _ _ _ _ _ h ho
  · rw [if_neg hpar]
    obtain ⟨m, hm⟩ : ∃ m, st.round_number = m + 1 := ⟨st.round_number - 1, by omega⟩
    have hc := run_inv_current_offer bA sA item st m h hm
    rw [hc]
    dsimp only
    have hm0 : m % 2 = 0 := by omega
    have ho :
        ({ price := max ((offer_at (bA.get_walk_away_price item.starting_price)
             (sA.get_walk_away_price item.starting_price) item.starting_price m).price *
             (23/20)) (sA.get_walk_away_price st.item.starting_price),
           message := "I could consider",
           round_number := st.round_number + 1,
           agent_type := "seller" } : Offer) =
        offer_at (bA.get_walk_away_price item.starting_price)
          (sA.get_walk_away_price item.starting_price) item.starting_price
          st.round_number := by
      rw [hitem, offer_at_price, hm]
      have hne : ¬ ((m + 1) % 2 = 0) := by omega
      simp [offer_at, price_at, hm0, hne]
    split
    · rw [← hc]
      exact run_inv_set_result _ _ _ _ _ _ h
    · split
      · exact run_inv_set_result _ _ _ _ _ _ (run_inv_add_offer _ _ _ _ _ h ho)
      · exact run_inv_add_offer _ _ _ _ _ h ho

theorem run_inv_loop (bA : BuyerAgent) (sA : SellerAgent) (item : FurnitureItem)
    (fuel : ℕ) (st : NegotiationState) (h : run_inv bA sA item st) :
    run_inv bA sA item (run_negotiation_loop bA sA fuel st) := by
  induction fuel generalizing st with
  | zero => exact h
  | succ n ih =>
    unfold run_negotiation_loop
    split
    · exact h
    · exact ih _ (run_inv_step bA sA item st h)

theorem run_inv_init (bA : BuyerAgent) (sA : SellerAgent) (item : FurnitureItem) (m : ℕ) :
    run_inv bA sA item (init_negotiation_state item m) := by
  refine ⟨rfl, ?_, rfl⟩
  simp [init_negotiation_state]

theorem price_at_odd (Wb Ws P : ℚ) (k : ℕ) :
    price_at Wb Ws P (2*k+1) = max (price_at Wb Ws P (2*k) * (23/20)) Ws := by
  have h : (2*k) % 2 = 0 := by omega
  simp [price_at, h]

theorem price_at_even_succ (Wb Ws P : ℚ) (k : ℕ) :
    price_at Wb Ws P (2*k+2) = min (price_at Wb Ws P (2*k+1) * (11/10)) Wb := by
  have h : ¬ ((2*k+1) % 2 = 0) := by omega
  show price_at Wb Ws P ((2*k+1)+1) = _
  simp [price_at, h]

theorem price_at_odd_nonneg (Wb Ws P : ℚ) (hWs : 0 ≤ Ws) (k : ℕ) :
    0 ≤ price_at Wb Ws P (2*k+1) := by
  rw [price_at_odd]
  exact le_trans hWs (le_max_right _ _)

theorem price_at_even_succ_nonneg (Wb Ws P : ℚ) (hWb : 0 ≤ Wb) (hWs : 0 ≤ Ws) (k : ℕ) :
    0 ≤ price_at Wb Ws P (2*k+2) := by
  rw [price_at_even_succ]
  refine le_min ?_ hWb
  exact mul_nonneg (price_at_odd_nonneg Wb Ws P hWs k) (by norm_num)

theorem price_at_even_succ_le (Wb Ws P : ℚ) (k : ℕ) :
    price_at Wb Ws P (2*k+2) ≤ Wb := by
  rw [price_at_even_succ]
  exact min_le_right _ _

theorem price_at_buyer_step (Wb Ws P : ℚ) (hWb : 0 ≤ Wb) (hWs : 0 ≤ Ws) (k : ℕ) :
    price_at Wb Ws P (2*k+2) ≤ price_at Wb Ws P (2*k+4) := by
  rw [(by omega : (2*k+4 : ℕ) = 2*(k+1)+2)]
  conv_rhs => rw [price_at_even_succ]
  refine le_min ?_ (price_at_even_succ_le Wb Ws P k)
  have h1 : price_at Wb Ws P (2*k+2) * (23/20) ≤ price_at Wb Ws P (2*(k+1)+1) := by
    rw [price_at_odd, (by omega : (2*(k+1) : ℕ) = 2*k+2)]
    exact le_max_left _ _
  have h0 := price_at_even_succ_nonneg Wb Ws P hWb hWs k
  have h2 : price_at Wb Ws P (2*k+2) ≤ price_at Wb Ws P (2*k+2) * (23/20) * (11/10) := by
    have h3 := le_mul_of_one_le_right h0 (show (1:ℚ) ≤ 253/200 by norm_num)
    calc price_at Wb Ws P (2*k+2) ≤ price_at Wb Ws P (2*k+2) * (253/200) := h3
      _ = price_at Wb Ws P (2*k+2) * (23/20) * (11/10) := by ring
  refine le_trans h2 ?_
  exact mul_le_mul_of_nonneg_right h1 (by norm_num)

theorem price_at_seller_step (Wb Ws P : ℚ) (hWb : 0 ≤ Wb) (hWs : 0 ≤ Ws) (k : ℕ) :
    price_at Wb Ws P (2*k+3) ≤ price_at Wb Ws P (2*k+5) := by
  rw [(by omega : (2*k+3 : ℕ) = 2*(k+1)+1), (by omega : (2*k+5 : ℕ) = 2*(k+2)+1),
      price_at_odd, price_at_odd]
  refine max_le_max ?_ le_rfl
  refine mul_le_mul_of_nonneg_right ?_ (by norm_num)
  rw [(by omega : (2*(k+1) : ℕ) = 2*k+2), (by omega : (2*(k+2) : ℕ) = 2*k+4)]
  exact price_at_buyer_step Wb Ws P hWb hWs k

theorem price_at_buyer_mono (Wb Ws P : ℚ) (hWb : 0 ≤ Wb) (hWs : 0 ≤ Ws) (k d : ℕ) :
    price_at Wb Ws P (2*k+2) ≤ price_at Wb Ws P (2*k+2+2*d) := by
  induction d with
  | zero => simp
  | succ n ih =>
    refine le_trans ih ?_
    have h := price_at_buyer_step Wb Ws P hWb hWs (k+n)
    rw [(by omega : (2*(k+n)+2 : ℕ) = 2*k+2+2*n),
        (by omega : (2*(k+n)+4 : ℕ) = 2*k+2+2*(n+1))] at h
    exact h

theorem price_at_seller_mono (Wb Ws P : ℚ) (hWb : 0 ≤ Wb) (hWs : 0 ≤ Ws) (k d : ℕ) :
    price_at Wb Ws P (2*k+3) ≤ price_at Wb Ws P (2*k+3+2*d) := by
  induction d with
  | zero => simp
  | succ n ih =>
    refine le_trans ih ?_
    have h := price_at_seller_step Wb Ws P hWb hWs (k+n)
    rw [(by omega : (2*(k+n)+3 : ℕ) = 2*k+3+2*n),
        (by omega : (2*(k+n)+5 : ℕ) = 2*k+3+2*(n+1))] at h
    exact h

theorem price_at_mono_even (Wb Ws P : ℚ) (hWb : 0 ≤ Wb) (hWs : 0 ≤ Ws) (i j : ℕ)
    (h2 : 2 ≤ i) (hij : i ≤ j) (hi : i % 2 = 0) (hj : j % 2 = 0) :
    price_at Wb Ws P i ≤ price_at Wb Ws P j := by
  obtain ⟨k, rfl⟩ : ∃ k, i = 2*k+2 := ⟨(i-2)/2, by omega⟩
  obtain ⟨d, rfl⟩ : ∃ d, j = 2*k+2+2*d := ⟨(j-(2*k+2))/2, by omega⟩
  exact price_at_buyer_mono Wb Ws P hWb hWs k d

theorem price_at_mono_odd (Wb Ws P : ℚ) (hWb : 0 ≤ Wb) (hWs : 0 ≤ Ws) (i j : ℕ)
    (h3 : 3 ≤ i) (hij : i ≤ j) (hi : i % 2 = 1) (hj : j % 2 = 1) :
    price_at Wb Ws P i ≤ price_at Wb Ws P j := by
  obtain ⟨k, rfl⟩ : ∃ k, i = 2*k+3 := ⟨(i-3)/2, by omega⟩
  obtain ⟨d, rfl⟩ : ∃ d, j = 2*k+3+2*d := ⟨(j-(2*k+3))/2, by omega⟩
  exact price_at_seller_mono Wb Ws P hWb hWs k d

theorem session_history_get (bA : BuyerAgent) (sA : SellerAgent) (item : FurnitureItem)
    (m fuel : ℕ) (t : ℕ) (ht : t < (session_history bA sA item m fuel).length) :
    (session_history bA sA item m fuel).get ⟨t, ht⟩ =
      offer_at (bA.get_walk_away_price item.starting_price)
        (sA.get_walk_away_price item.starting_price) item.starting_price t := by
  have hinv := run_inv_loop bA sA item fuel _ (run_inv_init bA sA item m)
  have hhist := hinv.2.1
  have heq : session_history bA sA item m fuel =
      (List.range ((run_negotiation_loop bA sA fuel
        (init_negotiation_state item m)).round_number)).map
        (offer_at (bA.get_walk_away_price item.starting_price)
          (sA.get_walk_away_price item.starting_price) item.starting_price) := hhist
  rw [List.get_of_eq heq]
  simp

theorem str_seller_ne_buyer : ¬ (("seller" : String) = "buyer") := by simp

theorem str_buyer_ne_seller : ¬ (("buyer" : String) = "seller") := by simp

theorem accepted_ne_in_progress :
    ¬ (NegotiationResult.DEAL_ACCEPTED = NegotiationResult.IN_PROGRESS) := by
  decide

-- Concrete session traces used by the C1/C2/C5 verdicts.

theorem session_65_55_history :
    session_history buyer65 seller55 item1000 8 8 =
      [{ price := 600, message := "I can offer", round_number := 1, agent_type := "buyer" },
       { price := 690, message := "I could consider", round_number := 2, agent_type := "seller" },
       { price := 650, message := "I can offer", round_number := 3, agent_type := "buyer" },
       { price := 1495/2, message := "I could consider", round_number := 4, agent_type := "seller" },
       { price := 650, message := "I can offer", round_number := 5, agent_type := "buyer" },
       { price := 1495/2, message := "I could consider", round_number := 6, agent_type := "seller" },
       { price := 650, message := "I can offer", round_number := 7, agent_type := "buyer" },
       { price := 1495/2, message := "I could consider", round_number := 8, agent_type := "seller" }] := by
  norm_num [session_history, run_negotiation_loop, execute_negotiation_round,
    init_negotiation_state, NegotiationState.is_complete, NegotiationState.add_offer,
    BuyerAgent.should_accept_offer, SellerAgent.should_accept_offer,
    BuyerAgent.get_walk_away_price, SellerAgent.get_walk_away_price,
    item1000, buyer65, seller55, min_def, max_def, str_seller_ne_buyer,
    str_buyer_ne_seller, accepted_ne_in_progress]

theorem session_50_55_history :
    session_history buyer50 seller55 item1000 8 8 =
      [{ price := 600, message := "I can offer", round_number := 1, agent_type := "buyer" },
       { price := 690, message := "I could consider", round_number := 2, agent_type := "seller" },
       { price := 500, message := "I can offer", round_number := 3, agent_type := "buyer" },
       { price := 575, message := "I could consider", round_number := 4, agent_type := "seller" }] := by
  norm_num [session_history, run_negotiation_loop, execute_negotiation_round,
    init_negotiation_state, NegotiationState.is_complete, NegotiationState.add_offer,
    BuyerAgent.should_accept_offer, SellerAgent.should_accept_offer,
    BuyerAgent.get_walk_away_price, SellerAgent.get_walk_away_price,
    item1000, buyer50, seller55, min_def, max_def, str_seller_ne_buyer,
    str_buyer_ne_seller, accepted_ne_in_progress]

/-- C1, as stated, is false on the code.  In the session with asking price
1000, buyer walk-away 650 and seller walk-away 550, the seller's offers are
690, 747.5, 747.5, 747.5 — strictly increasing at the first step, so the
seller sequence is not non-increasing; and in the session with buyer
walk-away 500 the buyer's offers are 600, 500 — decreasing from the fixed
60% opening offer to the walk-away cap. -/
theorem c1_price_monotonicity_counterexample :
    (¬ List.Chain' (fun a b => b ≤ a)
        (seller_prices (session_history buyer65 seller55 item1000 8 8))) ∧
    (¬ List.Chain' (fun a b => a ≤ b)
        (buyer_prices (session_history buyer50 seller55 item1000 8 8))) := by
  constructor
  · rw [session_65_55_history]
    norm_num [seller_prices, List.filter_cons, str_seller_ne_buyer, str_buyer_ne_seller,
      List.chain'_cons]
  · rw [session_50_55_history]
    norm_num [buyer_prices, List.filter_cons, str_seller_ne_buyer, str_buyer_ne_seller,
      List.chain'_cons]

/-- C1 (amended): in every session run from a fresh state, offers at even
history indices are the buyer's and offers at odd indices are the seller's;
the buyer's offers from its second offer onwards (history index ≥ 2) are
non-decreasing, and the seller's offers from its second offer onwards
(history index ≥ 3) are likewise non-decreasing — not non-increasing as
claimed.  The two opening steps may decrease when the buyer's walk-away
price lies below the fixed 60% opening offer. -/
theorem c1_price_monotonicity_amended
    (bA : BuyerAgent) (sA : SellerAgent) (item : FurnitureItem) (m fuel i j : ℕ)
    (hWb : 0 ≤ bA.get_walk_away_price item.starting_price)
    (hWs : 0 ≤ sA.get_walk_away_price item.starting_price)
    (hi : i < (session_history bA sA item m fuel).length)
    (hj : j < (session_history bA sA item m fuel).length) :
    ((session_history bA sA item m fuel).get ⟨i, hi⟩).agent_type =
        (if i % 2 = 0 then "buyer" else "seller") ∧
      (2 ≤ i → i ≤ j → i % 2 = 0 → j % 2 = 0 →
        ((session_history bA sA item m fuel).get ⟨i, hi⟩).price ≤
          ((session_history bA sA item m fuel).get ⟨j, hj⟩).price) ∧
      (3 ≤ i → i ≤ j → i % 2 = 1 → j % 2 = 1 →
        ((session_history bA sA item m fuel).get ⟨i, hi⟩).price ≤
          ((session_history bA sA item m fuel).get ⟨j, hj⟩).price) := by
  rw [session_history_get bA sA item m fuel i hi, session_history_get bA sA item m fuel j hj,
      offer_at_agent_type, offer_at_price, offer_at_price]
  refine ⟨rfl, ?_, ?_⟩
  · intro h2 hij hpi hpj
    exact price_at_mono_even _ _ _ hWb hWs i j h2 hij hpi hpj
  · intro h3 hij hpi hpj
    exact price_at_mono_odd _ _ _ hWb hWs i j h3 hij hpi hpj

/-- C1 witness: the amended monotonicity theorem applied to the concrete
session with asking price 1000, buyer walk-away 650, seller walk-away 550,
at the buyer offers of history indices 2 and 4. -/
theorem c1_price_monotonicity_witness :
    0 ≤ buyer65.get_walk_away_price item1000.starting_price ∧
    0 ≤ seller55.get_walk_away_price item1000.starting_price ∧
    ((session_history buyer65 seller55 item1000 8 8).get
        ⟨2, by simp [session_65_55_history]⟩).price ≤
      ((session_history buyer65 seller55 item1000 8 8).get
        ⟨4, by simp [session_65_55_history]⟩).price := by
  refine ⟨by norm_num [BuyerAgent.get_walk_away_price, buyer65, item1000],
    by norm_num [SellerAgent.get_walk_away_price, seller55, item1000], ?_⟩
  exact (c1_price_monotonicity_amended buyer65 seller55 item1000 8 8 2 4
    (by norm_num [BuyerAgent.get_walk_away_price, buyer65, item1000])
    (by norm_num [SellerAgent.get_walk_away_price, seller55, item1000])
    (by simp [session_65_55_history]) (by simp [session_65_55_history])).2.1
    (by norm_num) (by norm_num) (by norm_num) (by norm_num)

-- Termination and result-shape lemmas for the negotiation loop.

theorem step_wf (bA : BuyerAgent) (sA : SellerAgent) (st : NegotiationState)
    (h : wf_state st) : wf_state (execute_negotiation_round bA sA st) := by
  unfold wf_state execute_negotiation_round NegotiationState.add_offer
  dsimp only
  repeat' split
  all_goals intro hh
  all_goals first
    | rfl
    | exact h hh

theorem step_progress (bA : BuyerAgent) (sA : SellerAgent) (st : NegotiationState)
    (hwf : wf_state st) :
    (execute_negotiation_round bA sA st).round_number = st.round_number + 1 ∨
      (execute_negotiation_round bA sA st).is_complete = true := by
  unfold execute_negotiation_round NegotiationState.add_offer
  by_cases hpar : st.round_number % 2 = 0
  · rw [if_pos hpar]
    dsimp only
    repeat' split
    all_goals (left; rfl)
  · rw [if_neg hpar]
    cases hoc : st.current_offer with
    | none =>
      exfalso
      have h0 : st.round_number ≠ 0 := by omega
      have hs := hwf h0
      rw [hoc] at hs
      simp at hs
    | some cur =>
      dsimp only
      split
      · right
        simp [NegotiationState.is_complete, accepted_ne_in_progress]
      · split
        · left; rfl
        · left; rfl

theorem step_no_no_deal (bA : BuyerAgent) (sA : SellerAgent) (st : NegotiationState)
    (h : st.result ≠ NegotiationResult.NO_DEAL) :
    (execute_negotiation_round bA sA st).result ≠ NegotiationResult.NO_DEAL := by
  unfold execute_negotiation_round NegotiationState.add_offer
  dsimp only
  repeat' split
  all_goals first
    | exact h
    | simp

theorem run_loop_of_complete (bA : BuyerAgent) (sA : SellerAgent) (fuel : ℕ)
    (st : NegotiationState) (h : st.is_complete = true) :
    run_negotiation_loop bA sA fuel st = st := by
  cases fuel with
  | zero => rfl
  | succ n => simp [run_negotiation_loop, h]

theorem run_loop_complete (bA : BuyerAgent) (sA : SellerAgent) (fuel : ℕ) :
    ∀ st : NegotiationState, wf_state st → st.max_rounds ≤ st.round_number + fuel →
      (run_negotiation_loop bA sA fuel st).is_complete = true := by
  induction fuel with
  | zero =>
    intro st hwf hle
    show st.is_complete = true
    unfold NegotiationState.is_complete
    rw [decide_eq_true_iff]
    right
    omega
  | succ n ih =>
    intro st hwf hle
    unfold run_negotiation_loop
    split
    · assumption
    · rename_i hcond
      have hnc : st.is_complete = false := by
        revert hcond
        cases st.is_complete <;> simp
      rcases step_progress bA sA st hwf with hround | hcomp
      · refine ih _ (step_wf bA sA st hwf) ?_
        rw [hround, step_max_rounds]
        omega
      · rw [run_loop_of_complete bA sA n _ hcomp]
        exact hcomp

theorem run_loop_no_no_deal (bA : BuyerAgent) (sA : SellerAgent) (fuel : ℕ) :
    ∀ st : NegotiationState, st.result ≠ NegotiationResult.NO_DEAL →
      (run_negotiation_loop bA sA fuel st).result ≠ NegotiationResult.NO_DEAL := by
  induction fuel with
  | zero => intro st h; exact h
  | succ n ih =>
    intro st h
    unfold run_negotiation_loop
    split
    · exact h
    · exact ih _ (step_no_no_deal bA sA st h)

theorem accept_inv_add_offer (bA : BuyerAgent) (sA : SellerAgent)
    (st : NegotiationState) (o : Offer) (h : accept_inv bA sA st) :
    accept_inv bA sA (st.add_offer o) := h

theorem accept_inv_build (bA : BuyerAgent) (sA : SellerAgent) (u : NegotiationState) (q : ℚ)
    (hc : sA.should_accept_offer q u.item.starting_price = true ∨
      bA.should_accept_offer q u.item.starting_price = true) :
    accept_inv bA sA
      { u with result := NegotiationResult.DEAL_ACCEPTED, final_price := some q } :=
  fun _ => ⟨q, rfl, hc⟩

theorem step_accept_inv (bA : BuyerAgent) (sA : SellerAgent) (st : NegotiationState)
    (h : accept_inv bA sA st) :
    accept_inv bA sA (execute_negotiation_round bA sA st) := by
  unfold execute_negotiation_round
  by_cases hpar : st.round_number % 2 = 0
  · rw [if_pos hpar]
    dsimp only
    by_cases h0 : st.round_number = 0
    · rw [if_pos h0]
      split
      · exact accept_inv_build bA sA _ _ (Or.inl (by assumption))
      · exact accept_inv_add_offer bA sA st _ h
    · rw [if_neg h0]
      cases hoc : st.current_offer with
      | none =>
        dsimp only
        split
        · exact accept_inv_build bA sA _ _ (Or.inl (by assumption))
        · exact accept_inv_add_offer bA sA st _ h
      | some cur =>
        dsimp only
        split
        · exact accept_inv_build bA sA _ _ (Or.inl (by assumption))
        · exact accept_inv_add_offer bA sA st _ h
  · rw [if_neg hpar]
    cases hoc : st.current_offer with
    | none => exact h
    | some cur =>
      dsimp only
      split
      · exact accept_inv_build bA sA _ _ (Or.inl (by assumption))
      · split
        · exact accept_inv_build bA sA _ _ (Or.inr (by assumption))
        · exact accept_inv_add_offer bA sA st _ h

theorem run_loop_accept_inv (bA : BuyerAgent) (sA : SellerAgent) (fuel : ℕ) :
    ∀ st : NegotiationState, accept_inv bA sA st →
      accept_inv bA sA (run_negotiation_loop bA sA fuel st) := by
  induction fuel with
  | zero => intro st h; exact h
  | succ n ih =>
    intro st h
    unfold run_negotiation_loop
    split
    · exact h
    · exact ih _ (step_accept_inv bA sA st h)

theorem run_loop_item (bA : BuyerAgent) (sA : SellerAgent) (fuel : ℕ) :
    ∀ st : NegotiationState,
      (run_negotiation_loop bA sA fuel st).item = st.item := by
  induction fuel with
  | zero => intro st; rfl
  | succ n ih =>
    intro st
    unfold run_negotiation_loop
    split
    · rfl
    · rw [ih, step_item]

theorem session_50_70_spec :
    run_session_50_70.result = NegotiationResult.IN_PROGRESS ∧
    run_session_50_70.round_number = 8 ∧
    run_session_50_70.max_rounds = 8 := by
  norm_num [run_session_50_70, run_negotiation_loop, execute_negotiation_round,
    init_negotiation_state, NegotiationState.is_complete, NegotiationState.add_offer,
    BuyerAgent.should_accept_offer, SellerAgent.should_accept_offer,
    BuyerAgent.get_walk_away_price, SellerAgent.get_walk_away_price,
    item1000, buyer50, seller70, min_def, max_def, str_seller_ne_buyer,
    str_buyer_ne_seller, accepted_ne_in_progress]

theorem session_85_90_spec :
    run_session_85_90.result = NegotiationResult.DEAL_ACCEPTED ∧
    run_session_85_90.final_price = some 850 := by
  norm_num [run_session_85_90, run_negotiation_loop, execute_negotiation_round,
    init_negotiation_state, NegotiationState.is_complete, NegotiationState.add_offer,
    BuyerAgent.should_accept_offer, SellerAgent.should_accept_offer,
    BuyerAgent.get_walk_away_price, SellerAgent.get_walk_away_price,
    item1000, buyer85, seller90, min_def, max_def, str_seller_ne_buyer,
    str_buyer_ne_seller, accepted_ne_in_progress]

theorem session_50_55_spec :
    run_session_50_55.result = NegotiationResult.DEAL_ACCEPTED ∧
    run_session_50_55.final_price = some 575 := by
  norm_num [run_session_50_55, run_negotiation_loop, execute_negotiation_round,
    init_negotiation_state, NegotiationState.is_complete, NegotiationState.add_offer,
    BuyerAgent.should_accept_offer, SellerAgent.should_accept_offer,
    BuyerAgent.get_walk_away_price, SellerAgent.get_walk_away_price,
    item1000, buyer50, seller55, min_def, max_def, str_seller_ne_buyer,
    str_buyer_ne_seller, accepted_ne_in_progress]

/-- C2, second half, is false on the code: the session with asking price
1000, buyer walk-away 500 and seller walk-away 700 exhausts its 8 rounds
with no acceptance; the loop exit test `is_complete` holds, but the result
field is still IN_PROGRESS — it is never set to NO_DEAL. -/
theorem c2_termination_counterexample :
    run_session_50_70.is_complete = true ∧
    run_session_50_70.round_number = 8 ∧
    run_session_50_70.result = NegotiationResult.IN_PROGRESS ∧
    run_session_50_70.result ≠ NegotiationResult.NO_DEAL := by
  obtain ⟨h1, h2, h3⟩ := session_50_70_spec
  refine ⟨?_, h2, h1, ?_⟩
  · simp [NegotiationState.is_complete, h1, h2, h3]
  · rw [h1]
    decide

/-- C2 (amended): every negotiation session reaches a terminal state
(`is_complete`) within `max_rounds` rounds, but on round exhaustion with no
acceptance the result field remains IN_PROGRESS — the loop never sets
NO_DEAL (the orchestrator only distinguishes DEAL_ACCEPTED from everything
else). -/
theorem c2_termination_amended (bA : BuyerAgent) (sA : SellerAgent) (st : NegotiationState)
    (fuel : ℕ) (hwf : wf_state st) (hfuel : st.max_rounds ≤ st.round_number + fuel)
    (hres : st.result ≠ NegotiationResult.NO_DEAL) :
    (run_negotiation_loop bA sA fuel st).is_complete = true ∧
    (run_negotiation_loop bA sA fuel st).result ≠ NegotiationResult.NO_DEAL :=
  ⟨run_loop_complete bA sA fuel st hwf hfuel, run_loop_no_no_deal bA sA fuel st hres⟩

/-- C2 witness: the amended termination theorem applied to the fresh
session with asking price 1000 and `max_rounds = 8`. -/
theorem c2_termination_witness :
    wf_state (init_negotiation_state item1000 8) ∧
    (init_negotiation_state item1000 8).max_rounds ≤
      (init_negotiation_state item1000 8).round_number + 8 ∧
    (init_negotiation_state item1000 8).result ≠ NegotiationResult.NO_DEAL ∧
    (run_negotiation_loop buyer50 seller70 8
      (init_negotiation_state item1000 8)).is_complete = true ∧
    (run_negotiation_loop buyer50 seller70 8
      (init_negotiation_state item1000 8)).result ≠ NegotiationResult.NO_DEAL := by
  have hwf : wf_state (init_negotiation_state item1000 8) := by
    intro hr
    exact absurd rfl hr
  have hfuel : (init_negotiation_state item1000 8).max_rounds ≤
      (init_negotiation_state item1000 8).round_number + 8 := by decide
  have hres : (init_negotiation_state item1000 8).result ≠ NegotiationResult.NO_DEAL := by
    decide
  obtain ⟨h1, h2⟩ := c2_termination_amended buyer50 seller70 _ 8 hwf hfuel hres
  exact ⟨hwf, hfuel, hres, h1, h2⟩

/-- C5, as stated, is false on the code: acceptance tests compare against
fixed target-based thresholds and ignore the walk-away prices.  With asking
price 1000, seller walk-away 900 and buyer walk-away 850, the seller
accepts a deal at 850, strictly below its walk-away price; with buyer
walk-away 500 and seller walk-away 550, the buyer accepts a deal at 575,
strictly above its walk-away price. -/
theorem c5_walk_away_counterexample :
    run_session_85_90.result = NegotiationResult.DEAL_ACCEPTED ∧
    run_session_85_90.final_price = some 850 ∧
    850 < seller90.get_walk_away_price item1000.starting_price ∧
    run_session_50_55.result = NegotiationResult.DEAL_ACCEPTED ∧
    run_session_50_55.final_price = some 575 ∧
    buyer50.get_walk_away_price item1000.starting_price < 575 := by
  obtain ⟨h1, h2⟩ := session_85_90_spec
  obtain ⟨h3, h4⟩ := session_50_55_spec
  refine ⟨h1, h2, ?_, h3, h4, ?_⟩
  · norm_num [SellerAgent.get_walk_away_price, seller90, item1000]
  · norm_num [BuyerAgent.get_walk_away_price, buyer50, item1000]

/-- C5 (amended): whenever a fresh session ends with DEAL_ACCEPTED, the
final price passed one of the two agents' acceptance tests — the seller's
(price ≥ 0.75·0.9·asking) or the buyer's (price ≤ 0.6·1.1·asking); the
walk-away prices only clamp the parties' own counter-offers and place no
bound on the accepted price. -/
theorem c5_walk_away_amended (bA : BuyerAgent) (sA : SellerAgent) (item : FurnitureItem)
    (m fuel : ℕ)
    (hacc : (run_negotiation_loop bA sA fuel (init_negotiation_state item m)).result =
      NegotiationResult.DEAL_ACCEPTED) :
    ∃ p, (run_negotiation_loop bA sA fuel (init_negotiation_state item m)).final_price =
        some p ∧
      (sA.should_accept_offer p item.starting_price = true ∨
       bA.should_accept_offer p item.starting_price = true) := by
  have hinv : accept_inv bA sA (init_negotiation_state item m) := by
    intro hr
    simp [init_negotiation_state] at hr
  obtain ⟨p, hp, hor⟩ := run_loop_accept_inv bA sA fuel _ hinv hacc
  have hitem : (run_negotiation_loop bA sA fuel (init_negotiation_state item m)).item = item := by
    rw [run_loop_item]
    rfl
  rw [hitem] at hor
  exact ⟨p, hp, hor⟩

/-- C5 witness: the amended theorem applied to the session with asking
price 1000, buyer walk-away 850, seller walk-away 900, which accepts at
price 850. -/
theorem c5_walk_away_witness :
    (run_negotiation_loop buyer85 seller90 8 (init_negotiation_state item1000 8)).result =
      NegotiationResult.DEAL_ACCEPTED ∧
    ∃ p, (run_negotiation_loop buyer85 seller90 8
        (init_negotiation_state item1000 8)).final_price = some p ∧
      (seller90.should_accept_offer p item1000.starting_price = true ∨
       buyer85.should_accept_offer p item1000.starting_price = true) := by
  have h1 : (run_negotiation_loop buyer85 seller90 8
      (init_negotiation_state item1000 8)).result = NegotiationResult.DEAL_ACCEPTED :=
    session_85_90_spec.1
  exact ⟨h1, c5_walk_away_amended buyer85 seller90 item1000 8 8 h1⟩

-- Association-list lemmas.

theorem assoc_get_set_self {α : Type} (m : List (String × α)) (k : String) (v : α) :
    assoc_get (assoc_set m k v) k = some v := by
  induction m with
  | nil => simp [assoc_set, assoc_get]
  | cons hd tl ih =>
    obtain ⟨k3, v3⟩ := hd
    by_cases h : k3 = k
    · simp [assoc_set, assoc_get, h]
    · simp [assoc_set, assoc_get, h, ih]

theorem assoc_get_set_ne {α : Type} (m : List (String × α)) (k k2 : String) (v : α)
    (h : k ≠ k2) : assoc_get (assoc_set m k v) k2 = assoc_get m k2 := by
  induction m with
  | nil => simp [assoc_set, assoc_get, h]
  | cons hd tl ih =>
    obtain ⟨k3, v3⟩ := hd
    by_cases h2 : k3 = k
    · simp [assoc_set, assoc_get, h2, h]
    · simp [assoc_set, assoc_get, h2, ih]

theorem assoc_get_erase_self {α : Type} (m : List (String × α)) (k : String) :
    assoc_get (assoc_erase m k) k = none := by
  induction m with
  | nil => simp [assoc_erase, assoc_get]
  | cons hd tl ih =>
    obtain ⟨k3, v3⟩ := hd
    by_cases h : k3 = k
    · simpa [assoc_erase, assoc_get, h] using ih
    · simpa [assoc_erase, assoc_get, h] using ih

theorem assoc_get_erase_ne {α : Type} (m : List (String × α)) (k k2 : String)
    (h : k ≠ k2) : assoc_get (assoc_erase m k) k2 = assoc_get m k2 := by
  induction m with
  | nil => simp [assoc_erase, assoc_get]
  | cons hd tl ih =>
    obtain ⟨k3, v3⟩ := hd
    by_cases h2 : k3 = k
    · have hne : ¬ (k3 = k2) := by
        rw [h2]
        exact h
      simp [assoc_erase, assoc_get, h2, hne, ih, h]
    · by_cases h3 : k3 = k2
      · simp [assoc_erase, assoc_get, h2, h3, Ne.symm h]
      · simp [assoc_erase, assoc_get, h2, h3, ih]

theorem assoc_set_length_le {α : Type} (m : List (String × α)) (k : String) (v : α) :
    (assoc_set m k v).length ≤ m.length + 1 := by
  induction m with
  | nil => simp [assoc_set]
  | cons hd tl ih =>
    obtain ⟨k3, v3⟩ := hd
    by_cases h : k3 = k
    · simp [assoc_set, h]
    · rw [show assoc_set ((k3, v3) :: tl) k v = (k3, v3) :: assoc_set tl k v by
        simp [assoc_set, h]]
      simp only [List.length_cons]
      omega

theorem assoc_set_length_of_get {α : Type} (m : List (String × α)) (k : String) (v w : α)
    (h : assoc_get m k = some w) : (assoc_set m k v).length = m.length := by
  induction m with
  | nil => simp [assoc_get] at h
  | cons hd tl ih =>
    obtain ⟨k3, v3⟩ := hd
    by_cases h2 : k3 = k
    · simp [assoc_set, h2]
    · rw [assoc_get, if_neg h2] at h
      rw [show assoc_set ((k3, v3) :: tl) k v = (k3, v3) :: assoc_set tl k v by
        simp [assoc_set, h2]]
      simp [ih h]

theorem pending_ne_sold :
    ListingStatus.PENDING_CONFIRMATION ≠ ListingStatus.SOLD := by decide

theorem active_ne_sold : ListingStatus.ACTIVE ≠ ListingStatus.SOLD := by decide

theorem pending_ne_active :
    ListingStatus.PENDING_CONFIRMATION ≠ ListingStatus.ACTIVE := by decide

theorem finalize_successful_deal_negotiations (s : Orchestrator) (deal : PendingDeal) :
    (finalize_successful_deal s deal).negotiations = s.negotiations := by
  unfold finalize_successful_deal
  dsimp only
  repeat' split
  all_goals rfl

theorem cancel_deal_negotiations (s : Orchestrator) (deal : PendingDeal) :
    (cancel_deal s deal).negotiations = s.negotiations := by
  unfold cancel_deal
  dsimp only
  repeat' split
  all_goals rfl

/-- C7: the live-session count never exceeds
`max_concurrent_negotiations`: a `start_negotiation` call arriving at or
above the cap returns none and leaves the state unchanged; below the cap
the count stays within the cap; and no other public operation grows the
negotiations map. -/
theorem c7_bounded_concurrency (s : Orchestrator)
    (nid bid lid uid did nm pers : String) (role : UserRole) (br : ℚ × ℚ)
    (it : FurnitureItem) (p q : ℚ) (d : ℕ) (a : Bool) :
    (s.max_concurrent_negotiations ≤ s.negotiations.length →
      start_negotiation s nid bid lid = (none, s)) ∧
    (s.negotiations.length ≤ s.max_concurrent_negotiations →
      (start_negotiation s nid bid lid).2.negotiations.length ≤
        s.max_concurrent_negotiations) ∧
    ((express_interest s bid lid).2.negotiations = s.negotiations) ∧
    ((confirm_deal s uid did a).2.negotiations = s.negotiations) ∧
    (∀ r, create_listing s lid uid it p q d = Except.ok r →
      r.2.negotiations = s.negotiations) ∧
    ((register_user s uid nm role pers br).2.negotiations = s.negotiations) := by
  refine ⟨?_, ?_, ?_, ?_, ?_, ?_⟩
  · intro hcap
    simp [start_negotiation, hcap]
  · intro hle
    by_cases hcap : s.max_concurrent_negotiations ≤ s.negotiations.length
    · simpa [start_negotiation, hcap] using hle
    · have hlt := Nat.lt_of_not_le hcap
      unfold start_negotiation
      rw [if_neg hcap]
      repeat' split
      all_goals dsimp only
      all_goals first
        | exact hle
        | (refine le_trans (assoc_set_length_le _ _ _) ?_; omega)
  · unfold express_interest
    repeat' split
    all_goals rfl
  · unfold confirm_deal
    repeat' split
    all_goals dsimp only
    all_goals first
      | rfl
      | (rw [finalize_successful_deal_negotiations]; try rfl)
      | (rw [cancel_deal_negotiations]; try rfl)
  · intro r hr
    unfold create_listing at hr
    split at hr
    · exact absurd hr (by simp)
    · split at hr
      · exact absurd hr (by simp)
      · rw [Except.ok.injEq] at hr
        subst hr
        rfl
  · rfl

/-- C7 witness: on a marketplace whose cap is 0 and whose live map is
empty, `start_negotiation` is rejected without state change, the count
stays within the cap, and the other operations leave the map alone. -/
theorem c7_bounded_concurrency_witness :
    start_negotiation orch_c7 "n9" "b9" "L9" = (none, orch_c7) ∧
    (start_negotiation orch_c7 "n9" "b9" "L9").2.negotiations.length ≤
      orch_c7.max_concurrent_negotiations ∧
    (express_interest orch_c7 "b9" "L9").2.negotiations = orch_c7.negotiations ∧
    (confirm_deal orch_c7 "b9" "d9" true).2.negotiations = orch_c7.negotiations ∧
    ("L9", orch_c7_listed).2.negotiations = orch_c7.negotiations ∧
    (register_user orch_c7 "u9" "Ned" UserRole.BUYER "Value Hunter"
      (0, 10000)).2.negotiations = orch_c7.negotiations := by
  have h := c7_bounded_concurrency orch_c7 "n9" "b9" "L9" "sel" "d9" "Ned" "Value Hunter"
    UserRole.BUYER (0, 10000) item1000 1000 550 7 true
  refine ⟨h.1 (by decide), h.2.1 (by decide), h.2.2.1, ?_, ?_, ?_⟩
  · exact (c7_bounded_concurrency orch_c7 "n9" "b9" "L9" "b9" "d9" "Ned" "Value Hunter"
      UserRole.BUYER (0, 10000) item1000 1000 550 7 true).2.2.2.1
  · exact h.2.2.2.2.1 ("L9", orch_c7_listed) rfl
  · exact (c7_bounded_concurrency orch_c7 "n9" "b9" "L9" "u9" "d9" "Ned" "Value Hunter"
      UserRole.BUYER (0, 10000) item1000 1000 550 7 true).2.2.2.2.2

theorem start_negotiation_not_active (s : Orchestrator) (nid bid lid : String)
    (L : ItemListing) (hL : assoc_get s.listings lid = some L)
    (hst : L.listing_status ≠ ListingStatus.ACTIVE) :
    start_negotiation s nid bid lid = (none, s) := by
  by_cases hcap : s.max_concurrent_negotiations ≤ s.negotiations.length
  · simp [start_negotiation, hcap]
  · cases hbu : assoc_get s.users bid with
    | none => simp [start_negotiation, hcap, hbu, hL]
    | some buyer =>
      cases hsel : assoc_get s.users L.seller_user_id with
      | none => simp [start_negotiation, hcap, hbu, hL, hsel]
      | some seller => simp [start_negotiation, hcap, hbu, hL, hsel, hst]

/-- C3, as stated, is false on the code: after both parties confirm deal
d1, listing L1 is SOLD, but the other pending deal d2 on the same listing
is still in the ledger, the other session n2 is untouched, and both
entries survive in the listing's active-negotiations map — nothing else is
cancelled. -/
theorem c3_finalize_counterexample :
    (assoc_get orch_c3_after.listings "L1").map (fun l => l.listing_status) =
      some ListingStatus.SOLD ∧
    assoc_get orch_c3_after.pending_deals "d2" = some deal_d2 ∧
    deal_d2.listing_id = "L1" ∧
    assoc_get orch_c3_after.negotiations "n2" = some { neg_n2 with status := "completed" } ∧
    (assoc_get orch_c3_after.listings "L1").map (fun l => l.active_negotiations) =
      some [("b1", "n1"), ("b2", "n2")] :=
  ⟨rfl, rfl, rfl, rfl, rfl⟩

/-- C3 (amended): when a pending deal finalizes, the listing's status
becomes SOLD, the deal's own ledger entry is removed, and every subsequent
`start_negotiation` call against that listing returns none; but no other
pending deal or negotiation referencing the listing is cancelled — the
rest of the ledger and the negotiations map are untouched. -/
theorem c3_finalize_amended (s : Orchestrator) (deal : PendingDeal) (L : ItemListing)
    (nid bid : String)
    (hL : assoc_get s.listings deal.listing_id = some L) :
    assoc_get (finalize_successful_deal s deal).listings deal.listing_id =
      some { L with listing_status := ListingStatus.SOLD } ∧
    assoc_get (finalize_successful_deal s deal).pending_deals deal.deal_id = none ∧
    (∀ did2, did2 ≠ deal.deal_id →
      assoc_get (finalize_successful_deal s deal).pending_deals did2 =
        assoc_get s.pending_deals did2) ∧
    (finalize_successful_deal s deal).negotiations = s.negotiations ∧
    start_negotiation (finalize_successful_deal s deal) nid bid deal.listing_id =
      (none, finalize_successful_deal s deal) := by
  have hfl : (finalize_successful_deal s deal).listings =
      assoc_set s.listings deal.listing_id
        { L with listing_status := ListingStatus.SOLD } := by
    unfold finalize_successful_deal
    rw [hL]
  have hfp : (finalize_successful_deal s deal).pending_deals =
      assoc_erase s.pending_deals deal.deal_id := by
    unfold finalize_successful_deal
    rw [hL]
  refine ⟨?_, ?_, ?_, finalize_successful_deal_negotiations s deal, ?_⟩
  · rw [hfl]
    exact assoc_get_set_self _ _ _
  · rw [hfp]
    exact assoc_get_erase_self _ _
  · intro did2 hne
    rw [hfp]
    exact assoc_get_erase_ne _ _ _ (Ne.symm hne)
  · refine start_negotiation_not_active _ nid bid _
      { L with listing_status := ListingStatus.SOLD } ?_ ?_
    · rw [hfl]
      exact assoc_get_set_self _ _ _
    · exact active_ne_sold ∘ Eq.symm ∘ congrArg id

theorem create_pending_deal_pending_self (s : Orchestrator) (did : String)
    (neg : ActiveNegotiation) :
    assoc_get (create_pending_deal s did neg).pending_deals did =
      some
        { deal_id := did
          negotiation_id := neg.negotiation_id
          listing_id := neg.listing_id
          buyer_user_id := neg.buyer_user_id
          seller_user_id := neg.seller_user_id
          agreed_price := neg.negotiation_state.final_price
          seller_confirmed := false
          buyer_confirmed := false } := by
  unfold create_pending_deal
  dsimp only
  split
  all_goals exact assoc_get_set_self _ _ _

theorem create_pending_deal_pending_ne (s : Orchestrator) (did : String)
    (neg : ActiveNegotiation) (did2 : String) (h : did2 ≠ did) :
    assoc_get (create_pending_deal s did neg).pending_deals did2 =
      assoc_get s.pending_deals did2 := by
  unfold create_pending_deal
  dsimp only
  split
  all_goals exact assoc_get_set_ne _ _ _ _ (Ne.symm h)

theorem create_pending_deal_negotiations_self (s : Orchestrator) (did : String)
    (neg : ActiveNegotiation) :
    assoc_get (create_pending_deal s did neg).negotiations neg.negotiation_id =
      some { neg with status := "completed" } := by
  unfold create_pending_deal
  dsimp only
  split
  all_goals exact assoc_get_set_self _ _ _

theorem create_pending_deal_listing (s : Orchestrator) (did : String)
    (neg : ActiveNegotiation) (L : ItemListing)
    (hL : assoc_get s.listings neg.listing_id = some L) :
    assoc_get (create_pending_deal s did neg).listings neg.listing_id =
      some { L with listing_status := ListingStatus.PENDING_CONFIRMATION } := by
  unfold create_pending_deal
  dsimp only
  rw [hL]
  exact assoc_get_set_self _ _ _

theorem finalize_failed_negotiations_self (s : Orchestrator) (neg : ActiveNegotiation) :
    assoc_get (finalize_failed_negotiation s neg).negotiations neg.negotiation_id =
      some { neg with status := "failed" } := by
  unfold finalize_failed_negotiation
  dsimp only
  repeat' split
  all_goals exact assoc_get_set_self _ _ _

theorem finalize_failed_removes_entry (s : Orchestrator) (neg : ActiveNegotiation)
    (L : ItemListing) (hL : assoc_get s.listings neg.listing_id = some L) :
    (assoc_get (finalize_failed_negotiation s neg).listings neg.listing_id).map
      (fun l => assoc_get l.active_negotiations neg.buyer_user_id) = some none := by
  unfold finalize_failed_negotiation
  dsimp only
  rw [hL]
  dsimp only
  by_cases hin : (assoc_get L.active_negotiations neg.buyer_user_id).isSome = true
  · rw [if_pos hin]
    dsimp only
    rw [assoc_get_set_self]
    simp [assoc_get_erase_self]
  · rw [if_neg hin]
    dsimp only
    rw [hL]
    have hnone := Option.not_isSome_iff_eq_none.mp hin
    simp [hnone]

theorem cancel_deal_listing (s : Orchestrator) (deal : PendingDeal) (L : ItemListing)
    (hL : assoc_get s.listings deal.listing_id = some L) :
    assoc_get (cancel_deal s deal).listings deal.listing_id =
      some { L with listing_status := ListingStatus.ACTIVE } := by
  unfold cancel_deal
  rw [hL]
  exact assoc_get_set_self _ _ _

theorem cancel_deal_pending_self (s : Orchestrator) (deal : PendingDeal) (L : ItemListing)
    (hL : assoc_get s.listings deal.listing_id = some L) :
    assoc_get (cancel_deal s deal).pending_deals deal.deal_id = none := by
  unfold cancel_deal
  rw [hL]
  exact assoc_get_erase_self _ _

/-- C8, as stated, is false on the code: with deal d1 pending on listing
L1 (status PENDING_CONFIRMATION), hand-off of the second agreement n2
creates a second PendingDeal d2 — both deals for the same listing coexist
in the ledger. -/
theorem c8_single_pending_deal_counterexample :
    (assoc_get orch_c8.listings "L1").map (fun l => l.listing_status) =
      some ListingStatus.PENDING_CONFIRMATION ∧
    assoc_get orch_c8_after.pending_deals "d1" = some deal_d1 ∧
    assoc_get orch_c8_after.pending_deals "d2" = some deal_d2 ∧
    deal_d1.listing_id = "L1" ∧ deal_d2.listing_id = "L1" :=
  ⟨rfl, rfl, rfl, rfl, rfl⟩

/-- C8 (amended): `_create_pending_deal` registers the new deal
unconditionally — it never inspects the listing's status — and leaves all
existing ledger entries in place, so a second agreement on a listing that
is already PENDING_CONFIRMATION yields a second simultaneous PendingDeal
for that listing. -/
theorem c8_single_pending_deal_amended (s : Orchestrator) (did : String)
    (neg : ActiveNegotiation) (L : ItemListing)
    (hL : assoc_get s.listings neg.listing_id = some L) :
    assoc_get (create_pending_deal s did neg).pending_deals did =
      some
        { deal_id := did
          negotiation_id := neg.negotiation_id
          listing_id := neg.listing_id
          buyer_user_id := neg.buyer_user_id
          seller_user_id := neg.seller_user_id
          agreed_price := neg.negotiation_state.final_price
          seller_confirmed := false
          buyer_confirmed := false } ∧
    (∀ did2, did2 ≠ did →
      assoc_get (create_pending_deal s did neg).pending_deals did2 =
        assoc_get s.pending_deals did2) ∧
    assoc_get (create_pending_deal s did neg).listings neg.listing_id =
      some { L with listing_status := ListingStatus.PENDING_CONFIRMATION } :=
  ⟨create_pending_deal_pending_self s did neg,
   fun did2 h => create_pending_deal_pending_ne s did neg did2 h,
   create_pending_deal_listing s did neg L hL⟩

/-- C8 witness: the amended theorem on the concrete two-agreement
marketplace. -/
theorem c8_single_pending_deal_witness :
    assoc_get orch_c8_after.pending_deals "d2" = some deal_d2 ∧
    assoc_get orch_c8_after.pending_deals "d1" = assoc_get orch_c8.pending_deals "d1" ∧
    assoc_get orch_c8_after.listings "L1" = some listing_l1 := by
  have h := c8_single_pending_deal_amended orch_c8 "d2" neg_n2 listing_l1 rfl
  exact ⟨h.1, h.2.1 "d1" (by decide), h.2.2⟩

/-- C9, as stated, is false on the code: after hand-off the completed
session n1 is still present in the negotiations map (status "completed"),
and after failure clean-up session n2 is still present (status "failed");
sessions are never removed from the live map. -/
theorem c9_session_removal_counterexample :
    assoc_get orch_c9_completed.negotiations "n1" =
      some { neg_n1 with status := "completed" } ∧
    assoc_get orch_c9_failed.negotiations "n2" =
      some { neg_n2 with status := "failed" } :=
  ⟨rfl, rfl⟩

/-- C9 (amended): a terminal session is never removed from the
negotiations map — hand-off marks it "completed" in place, failure marks
it "failed" in place; only the failure path removes the buyer's entry
from the listing's active-negotiations map. -/
theorem c9_session_removal_amended (s : Orchestrator) (did : String)
    (neg : ActiveNegotiation) (L : ItemListing)
    (hL : assoc_get s.listings neg.listing_id = some L) :
    assoc_get (create_pending_deal s did neg).negotiations neg.negotiation_id =
      some { neg with status := "completed" } ∧
    assoc_get (finalize_failed_negotiation s neg).negotiations neg.negotiation_id =
      some { neg with status := "failed" } ∧
    (assoc_get (finalize_failed_negotiation s neg).listings neg.listing_id).map
      (fun l => assoc_get l.active_negotiations neg.buyer_user_id) = some none :=
  ⟨create_pending_deal_negotiations_self s did neg,
   finalize_failed_negotiations_self s neg,
   finalize_failed_removes_entry s neg L hL⟩

/-- C9 witness: the amended theorem on the concrete marketplace with two
just-terminated sessions. -/
theorem c9_session_removal_witness :
    assoc_get orch_c9_completed.negotiations "n1" =
      some { neg_n1 with status := "completed" } ∧
    assoc_get (finalize_failed_negotiation orch_c9 neg_n1).negotiations "n1" =
      some { neg_n1 with status := "failed" } ∧
    (assoc_get (finalize_failed_negotiation orch_c9 neg_n1).listings "L1").map
      (fun l => assoc_get l.active_negotiations "b1") = some none := by
  have h := c9_session_removal_amended orch_c9 "d1" neg_n1 listing_l1 rfl
  exact ⟨h.1, h.2.1, h.2.2⟩

theorem start_negotiation_duplicate (s : Orchestrator) (nid bid lid : String)
    (L : ItemListing) (hL : assoc_get s.listings lid = some L)
    (hdup : (assoc_get L.active_negotiations bid).isSome = true) :
    start_negotiation s nid bid lid = (none, s) := by
  by_cases hcap : s.max_concurrent_negotiations ≤ s.negotiations.length
  · simp [start_negotiation, hcap]
  · cases hbu : assoc_get s.users bid with
    | none => simp [start_negotiation, hcap, hbu, hL]
    | some buyer =>
      cases hsel : assoc_get s.users L.seller_user_id with
      | none => simp [start_negotiation, hcap, hbu, hL, hsel]
      | some seller =>
        by_cases hst : L.listing_status = ListingStatus.ACTIVE
        · simp [start_negotiation, hcap, hbu, hL, hsel, hst, hdup]
        · simp [start_negotiation, hcap, hbu, hL, hsel, hst]

/-- C10: once a session ends in agreement, the buyer's entry in the
listing's active-negotiations map survives: the hand-off keeps it, a
later deal cancellation keeps it (only the status reverts to ACTIVE), and
while the entry exists `start_negotiation` for that (buyer, listing) pair
returns none; only the failure path removes the entry. -/
theorem c10_active_entry_permanence (s : Orchestrator) (did nid bid2 lid3 : String)
    (neg : ActiveNegotiation) (deal : PendingDeal) (L L2 L3 : ItemListing)
    (h1 : assoc_get s.listings neg.listing_id = some L)
    (h2 : assoc_get s.listings deal.listing_id = some L2)
    (h3 : assoc_get s.listings lid3 = some L3)
    (h4 : (assoc_get L3.active_negotiations bid2).isSome = true) :
    (assoc_get (create_pending_deal s did neg).listings neg.listing_id).map
      (fun l => l.active_negotiations) = some L.active_negotiations ∧
    (assoc_get (cancel_deal s deal).listings deal.listing_id).map
      (fun l => l.active_negotiations) = some L2.active_negotiations ∧
    start_negotiation s nid bid2 lid3 = (none, s) ∧
    (assoc_get (finalize_failed_negotiation s neg).listings neg.listing_id).map
      (fun l => assoc_get l.active_negotiations neg.buyer_user_id) = some none := by
  refine ⟨?_, ?_, start_negotiation_duplicate s nid bid2 lid3 L3 h3 h4,
    finalize_failed_removes_entry s neg L h1⟩
  · rw [create_pending_deal_listing s did neg L h1]
    rfl
  · rw [cancel_deal_listing s deal L2 h2]
    rfl

/-- C10 witness: the permanence facts on the concrete marketplace in
which sessions n1, n2 are recorded on listing L1. -/
theorem c10_active_entry_permanence_witness :
    (assoc_get (create_pending_deal orch_c9 "d1" neg_n1).listings "L1").map
      (fun l => l.active_negotiations) = some listing_l1.active_negotiations ∧
    (assoc_get (cancel_deal orch_c3 deal_d1).listings "L1").map
      (fun l => l.active_negotiations) = some listing_l1.active_negotiations ∧
    start_negotiation orch_c3 "n9" "b2" "L1" = (none, orch_c3) ∧
    (assoc_get (finalize_failed_negotiation orch_c9 neg_n1).listings "L1").map
      (fun l => assoc_get l.active_negotiations "b1") = some none := by
  have h := c10_active_entry_permanence orch_c9 "d1" "n9" "b2" "L1" neg_n1 deal_d1
    listing_l1 listing_l1 listing_l1 rfl rfl rfl rfl
  have h2 := c10_active_entry_permanence orch_c3 "d1" "n9" "b2" "L1" neg_n1 deal_d1
    listing_l1 listing_l1 listing_l1 rfl rfl rfl rfl
  exact ⟨h.1, h2.2.1, h2.2.2.1, h.2.2.2⟩

theorem confirm_deal_eq_buyer (s : Orchestrator) (uid did : String) (accept : Bool)
    (deal : PendingDeal) (hdeal : assoc_get s.pending_deals did = some deal)
    (hb : uid = deal.buyer_user_id) :
    confirm_deal s uid did accept =
      (let deal2 : PendingDeal := { deal with buyer_confirmed := accept }
       let s1 : Orchestrator :=
         { s with pending_deals := assoc_set s.pending_deals did deal2 }
       if (deal2.buyer_confirmed && deal2.seller_confirmed) = true then
         (true, finalize_successful_deal s1 deal2)
       else if accept = false then (true, cancel_deal s1 deal2)
       else (true, s1)) := by
  unfold confirm_deal
  rw [hdeal]
  dsimp only
  rw [if_pos hb]

theorem confirm_deal_eq_seller (s : Orchestrator) (uid did : String) (accept : Bool)
    (deal : PendingDeal) (hdeal : assoc_get s.pending_deals did = some deal)
    (hb : ¬ (uid = deal.buyer_user_id)) (hs : uid = deal.seller_user_id) :
    confirm_deal s uid did accept =
      (let deal2 : PendingDeal := { deal with seller_confirmed := accept }
       let s1 : Orchestrator :=
         { s with pending_deals := assoc_set s.pending_deals did deal2 }
       if (deal2.buyer_confirmed && deal2.seller_confirmed) = true then
         (true, finalize_successful_deal s1 deal2)
       else if accept = false then (true, cancel_deal s1 deal2)
       else (true, s1)) := by
  unfold confirm_deal
  rw [hdeal]
  dsimp only
  rw [if_neg hb, if_pos hs]

theorem confirm_deal_eq_stranger (s : Orchestrator) (uid did : String) (accept : Bool)
    (deal : PendingDeal) (hdeal : assoc_get s.pending_deals did = some deal)
    (hb : ¬ (uid = deal.buyer_user_id)) (hs : ¬ (uid = deal.seller_user_id)) :
    confirm_deal s uid did accept = (false, s) := by
  unfold confirm_deal
  rw [hdeal]
  dsimp only
  rw [if_neg hb, if_neg hs]

/-- C4: `confirm_deal` returns false exactly when the deal id is unknown
or the caller is neither party; with a known deal whose listing awaits
confirmation, a call with accept=false removes the ledger entry and
reverts the listing to ACTIVE, and the listing becomes SOLD (the deal
finalizes) precisely when the caller's accept=true completes the pair of
confirmed flags; finalizing also removes the ledger entry. -/
theorem c4_confirm_deal (s : Orchestrator) (user_id deal_id : String) (accept : Bool)
    (deal : PendingDeal) (L : ItemListing)
    (hdeal : assoc_get s.pending_deals deal_id = some deal)
    (hkey : deal.deal_id = deal_id)
    (hL : assoc_get s.listings deal.listing_id = some L)
    (hstat : L.listing_status = ListingStatus.PENDING_CONFIRMATION) :
    (∀ did2, assoc_get s.pending_deals did2 = none →
      confirm_deal s user_id did2 accept = (false, s)) ∧
    ((confirm_deal s user_id deal_id accept).1 = false ↔
      (user_id ≠ deal.buyer_user_id ∧ user_id ≠ deal.seller_user_id)) ∧
    ((user_id = deal.buyer_user_id ∨ user_id = deal.seller_user_id) → accept = false →
      assoc_get (confirm_deal s user_id deal_id accept).2.pending_deals deal_id = none ∧
      (assoc_get (confirm_deal s user_id deal_id accept).2.listings deal.listing_id).map
        (fun l => l.listing_status) = some ListingStatus.ACTIVE) ∧
    ((assoc_get (confirm_deal s user_id deal_id accept).2.listings deal.listing_id).map
        (fun l => l.listing_status) = some ListingStatus.SOLD ↔
      (accept = true ∧
        ((user_id = deal.buyer_user_id ∧ deal.seller_confirmed = true) ∨
         (user_id ≠ deal.buyer_user_id ∧ user_id = deal.seller_user_id ∧
           deal.buyer_confirmed = true)))) ∧
    ((assoc_get (confirm_deal s user_id deal_id accept).2.listings deal.listing_id).map
        (fun l => l.listing_status) = some ListingStatus.SOLD →
      assoc_get (confirm_deal s user_id deal_id accept).2.pending_deals deal_id = none) := by
  subst hkey
  refine ⟨?_, ?_, ?_, ?_, ?_⟩
  · intro did2 hnone
    unfold confirm_deal
    rw [hnone]
  · by_cases hb : user_id = deal.buyer_user_id
    · rw [confirm_deal_eq_buyer s user_id deal.deal_id accept deal hdeal hb]
      dsimp only
      constructor
      · intro hfst
        exfalso
        revert hfst
        split
        · simp
        · split
          · simp
          · simp
      · intro hcontra
        exact absurd hb hcontra.1
    · by_cases hs2 : user_id = deal.seller_user_id
      · rw [confirm_deal_eq_seller s user_id deal.deal_id accept deal hdeal hb hs2]
        dsimp only
        constructor
        · intro hfst
          exfalso
          revert hfst
          split
          · simp
          · split
            · simp
            · simp
        · intro hcontra
          exact absurd hs2 hcontra.2
      · rw [confirm_deal_eq_stranger s user_id deal.deal_id accept deal hdeal hb hs2]
        simp [hb, hs2]
  · intro hparty hacc
    subst hacc
    by_cases hb : user_id = deal.buyer_user_id
    · rw [confirm_deal_eq_buyer s user_id deal.deal_id false deal hdeal hb]
      dsimp only
      rw [if_neg (by simp)]
      rw [if_pos rfl]
      dsimp only
      unfold cancel_deal
      dsimp only
      rw [hL]
      dsimp only
      constructor
      · exact assoc_get_erase_self _ _
      · rw [assoc_get_set_self]
        rfl
    · have hs2 : user_id = deal.seller_user_id := hparty.resolve_left hb
      rw [confirm_deal_eq_seller s user_id deal.deal_id false deal hdeal hb hs2]
      dsimp only
      rw [if_neg (by simp)]
      rw [if_pos rfl]
      dsimp only
      unfold cancel_deal
      dsimp only
      rw [hL]
      dsimp only
      constructor
      · exact assoc_get_erase_self _ _
      · rw [assoc_get_set_self]
        rfl
  · by_cases hb : user_id = deal.buyer_user_id
    · rw [confirm_deal_eq_buyer s user_id deal.deal_id accept deal hdeal hb]
      dsimp only
      cases accept with
      | false =>
        rw [if_neg (by simp)]
        rw [if_pos rfl]
        dsimp only
        unfold cancel_deal
        dsimp only
        rw [hL]
        dsimp only
        rw [assoc_get_set_self]
        simp [hb, active_ne_sold]
      | true =>
        cases hsc : deal.seller_confirmed with
        | true =>
          rw [if_pos (by simp [hsc])]
          dsimp only
          unfold finalize_successful_deal
          dsimp only
          rw [hL]
          dsimp only
          rw [assoc_get_set_self]
          simp [hb, hsc]
        | false =>
          rw [if_neg (by simp [hsc])]
          rw [if_neg (by simp)]
          dsimp only
          rw [hL]
          simp [hb, hsc, hstat, pending_ne_sold]
    · by_cases hs2 : user_id = deal.seller_user_id
      · have hne : ¬ (deal.seller_user_id = deal.buyer_user_id) := by
          rw [← hs2]
          exact hb
        rw [confirm_deal_eq_seller s user_id deal.deal_id accept deal hdeal hb hs2]
        dsimp only
        cases accept with
        | false =>
          rw [if_neg (by simp)]
          rw [if_pos rfl]
          dsimp only
          unfold cancel_deal
          dsimp only
          rw [hL]
          dsimp only
          rw [assoc_get_set_self]
          simp [hb, hs2, active_ne_sold]
        | true =>
          cases hbc : deal.buyer_confirmed with
          | true =>
            rw [if_pos (by simp [hbc])]
            dsimp only
            unfold finalize_successful_deal
            dsimp only
            rw [hL]
            dsimp only
            rw [assoc_get_set_self]
            simp [hb, hs2, hbc, hne]
          | false =>
            rw [if_neg (by simp [hbc])]
            rw [if_neg (by simp)]
            dsimp only
            rw [hL]
            simp [hb, hs2, hbc, hstat, pending_ne_sold, hne]
      · rw [confirm_deal_eq_stranger s user_id deal.deal_id accept deal hdeal hb hs2]
        dsimp only
        rw [hL]
        simp [hb, hs2, hstat, pending_ne_sold]
  · by_cases hb : user_id = deal.buyer_user_id
    · rw [confirm_deal_eq_buyer s user_id deal.deal_id accept deal hdeal hb]
      dsimp only
      cases accept with
      | false =>
        rw [if_neg (by simp)]
        rw [if_pos rfl]
        dsimp only
        unfold cancel_deal
        dsimp only
        rw [hL]
        dsimp only
        rw [assoc_get_set_self]
        simp [active_ne_sold]
      | true =>
        cases hsc : deal.seller_confirmed with
        | true =>
          rw [if_pos (by simp [hsc])]
          dsimp only
          unfold finalize_successful_deal
          dsimp only
          rw [hL]
          dsimp only
          intro _
          exact assoc_get_erase_self _ _
        | false =>
          rw [if_neg (by simp [hsc])]
          rw [if_neg (by simp)]
          dsimp only
          rw [hL]
          simp [hstat, pending_ne_sold]
    · by_cases hs2 : user_id = deal.seller_user_id
      · rw [confirm_deal_eq_seller s user_id deal.deal_id accept deal hdeal hb hs2]
        dsimp only
        cases accept with
        | false =>
          rw [if_neg (by simp)]
          rw [if_pos rfl]
          dsimp only
          unfold cancel_deal
          dsimp only
          rw [hL]
          dsimp only
          rw [assoc_get_set_self]
          simp [active_ne_sold]
        | true =>
          cases hbc : deal.buyer_confirmed with
          | true =>
            rw [if_pos (by simp [hbc])]
            dsimp only
            unfold finalize_successful_deal
            dsimp only
            rw [hL]
            dsimp only
            intro _
            exact assoc_get_erase_self _ _
          | false =>
            rw [if_neg (by simp [hbc])]
            rw [if_neg (by simp)]
            dsimp only
            rw [hL]
            simp [hstat, pending_ne_sold]
      · rw [confirm_deal_eq_stranger s user_id deal.deal_id accept deal hdeal hb hs2]
        dsimp only
        rw [hL]
        simp [hstat, pending_ne_sold]

/-- C4 witness: the `confirm_deal` contract exercised on a ledger holding
one deal with the seller already confirmed: an unknown id fails, the
buyer's rejection cancels and reactivates the listing, and the buyer's
acceptance completes both flags, selling the listing and clearing the
ledger. -/
theorem c4_confirm_deal_witness :
    confirm_deal orch_c4 "b1" "dx" true = (false, orch_c4) ∧
    ((confirm_deal orch_c4 "b1" "d3" true).1 = false ↔
      ("b1" ≠ deal_d3.buyer_user_id ∧ "b1" ≠ deal_d3.seller_user_id)) ∧
    (assoc_get (confirm_deal orch_c4 "b1" "d3" false).2.pending_deals "d3" = none ∧
      (assoc_get (confirm_deal orch_c4 "b1" "d3" false).2.listings "L1").map
        (fun l => l.listing_status) = some ListingStatus.ACTIVE) ∧
    ((assoc_get (confirm_deal orch_c4 "b1" "d3" true).2.listings "L1").map
        (fun l => l.listing_status) = some ListingStatus.SOLD ↔
      (true = true ∧
        (("b1" = deal_d3.buyer_user_id ∧ deal_d3.seller_confirmed = true) ∨
         ("b1" ≠ deal_d3.buyer_user_id ∧ "b1" = deal_d3.seller_user_id ∧
           deal_d3.buyer_confirmed = true)))) ∧
    assoc_get (confirm_deal orch_c4 "b1" "d3" true).2.pending_deals "d3" = none := by
  have h := c4_confirm_deal orch_c4 "b1" "d3" true deal_d3 listing_l1 rfl rfl rfl rfl
  have hf := c4_confirm_deal orch_c4 "b1" "d3" false deal_d3 listing_l1 rfl rfl rfl rfl
  exact ⟨h.1 "dx" rfl, h.2.1, hf.2.2.1 (Or.inl rfl) rfl, h.2.2.2.1, h.2.2.2.2 (by rfl)⟩

/-- C3 witness: the amended finalize theorem on the concrete two-deal
marketplace. -/
theorem c3_finalize_witness :
    assoc_get (finalize_successful_deal orch_c3 deal_d1).listings "L1" =
      some { listing_l1 with listing_status := ListingStatus.SOLD } ∧
    assoc_get (finalize_successful_deal orch_c3 deal_d1).pending_deals "d1" = none ∧
    assoc_get (finalize_successful_deal orch_c3 deal_d1).pending_deals "d2" =
      assoc_get orch_c3.pending_deals "d2" ∧
    (finalize_successful_deal orch_c3 deal_d1).negotiations = orch_c3.negotiations ∧
    start_negotiation (finalize_successful_deal orch_c3 deal_d1) "n9" "b9" "L1" =
      (none, finalize_successful_deal orch_c3 deal_d1) := by
  have h := c3_finalize_amended orch_c3 deal_d1 listing_l1 "n9" "b9" rfl
  exact ⟨h.1, h.2.1, h.2.2.1 "d2" (by decide), h.2.2.2.1, h.2.2.2.2⟩

/-- C6, as stated, is false on the code: `create_listing` raises
`ValueError` (an exception across the public boundary, modelled as
`Except.error`) both for an unknown seller id and for a user that is not
a SELLER, instead of returning a negative result. -/
theorem c6_validation_counterexample :
    create_listing orch_c6 "L1" "ghost" item1000 1000 550 7 =
      Except.error "Seller not found" ∧
    create_listing orch_c6 "L1" "b1" item1000 1000 550 7 =
      Except.error "User is not registered as a seller" :=
  ⟨rfl, rfl⟩

/-- C6 (amended): `express_interest`, `start_negotiation` and
`confirm_deal` report every validation failure — unknown user, listing or
deal ids, a non-BUYER caller, a non-ACTIVE listing, a duplicate
negotiation for the same (buyer, listing) pair, a saturated concurrency
cap, and a confirmer who is neither party — as explicit negative results
(false / none) with the state unchanged; but `create_listing` raises
`ValueError` (modelled as `Except.error`) both when the seller id is
unknown and when the user is not a SELLER, contradicting the
no-exceptions policy. -/
theorem c6_validation_results (s : Orchestrator)
    (sid1 sid2 bid0 lid0 buyid selid lidA lidN nid did0 did1 uid : String)
    (u2 ub us : UserProfile) (LA LN : ItemListing) (deal : PendingDeal)
    (it : FurnitureItem) (p q : ℚ) (d : ℕ) (a : Bool)
    (h1 : assoc_get s.users sid1 = none)
    (h2 : assoc_get s.users sid2 = some u2)
    (h3 : u2.role ≠ UserRole.SELLER)
    (h4 : assoc_get s.users bid0 = none)
    (h5 : assoc_get s.listings lid0 = none)
    (h6 : assoc_get s.users buyid = some ub)
    (h7 : ub.role = UserRole.BUYER)
    (h8 : assoc_get s.users selid = some us)
    (h9 : us.role ≠ UserRole.BUYER)
    (h10 : assoc_get s.listings lidA = some LA)
    (h11 : LA.listing_status = ListingStatus.ACTIVE)
    (h12 : (assoc_get LA.active_negotiations buyid).isSome = true)
    (h13 : assoc_get s.listings lidN = some LN)
    (h14 : LN.listing_status ≠ ListingStatus.ACTIVE)
    (h15 : assoc_get s.pending_deals did0 = none)
    (h16 : assoc_get s.pending_deals did1 = some deal)
    (h17 : uid ≠ deal.buyer_user_id)
    (h18 : uid ≠ deal.seller_user_id) :
    create_listing s lid0 sid1 it p q d = Except.error "Seller not found" ∧
    create_listing s lid0 sid2 it p q d =
      Except.error "User is not registered as a seller" ∧
    express_interest s bid0 lidA = (false, s) ∧
    express_interest s buyid lid0 = (false, s) ∧
    express_interest s selid lidA = (false, s) ∧
    express_interest s buyid lidN = (false, s) ∧
    express_interest s buyid lidA = (false, s) ∧
    (s.max_concurrent_negotiations ≤ s.negotiations.length →
      start_negotiation s nid buyid lidA = (none, s)) ∧
    start_negotiation s nid bid0 lidA = (none, s) ∧
    start_negotiation s nid buyid lid0 = (none, s) ∧
    start_negotiation s nid buyid lidN = (none, s) ∧
    start_negotiation s nid buyid lidA = (none, s) ∧
    confirm_deal s uid did0 a = (false, s) ∧
    confirm_deal s uid did1 a = (false, s) := by
  refine ⟨?_, ?_, ?_, ?_, ?_, ?_, ?_, ?_, ?_, ?_, ?_, ?_, ?_, ?_⟩
  · simp [create_listing, h1]
  · simp [create_listing, h2, h3]
  · simp [express_interest, h4, h10]
  · simp [express_interest, h6, h5]
  · simp [express_interest, h8, h10, h9]
  · simp [express_interest, h6, h13, h7, h14]
  · simp [express_interest, h6, h10, h7, h11, h12]
  · intro hcap
    simp [start_negotiation, hcap]
  · by_cases hcap : s.max_concurrent_negotiations ≤ s.negotiations.length
    · simp [start_negotiation, hcap]
    · simp [start_negotiation, hcap, h4, h10]
  · by_cases hcap : s.max_concurrent_negotiations ≤ s.negotiations.length
    · simp [start_negotiation, hcap]
    · simp [start_negotiation, hcap, h6, h5]
  · exact start_negotiation_not_active s nid buyid lidN LN h13 h14
  · exact start_negotiation_duplicate s nid buyid lidA LA h10 h12
  · unfold confirm_deal
    rw [h15]
  · exact confirm_deal_eq_stranger s uid did1 a deal h16 h17 h18

/-- C6 witness: every validation failure exercised on the concrete
marketplace `orch_c6b` (cap 0, buyer b1, seller sel, ACTIVE listing LA
already holding b1's session, expired listing LN, pending deal d1). -/
theorem c6_validation_results_witness :
    create_listing orch_c6b "LX" "ghost" item1000 1000 550 7 =
      Except.error "Seller not found" ∧
    create_listing orch_c6b "LX" "b1" item1000 1000 550 7 =
      Except.error "User is not registered as a seller" ∧
    express_interest orch_c6b "ghost" "LA" = (false, orch_c6b) ∧
    express_interest orch_c6b "b1" "LX" = (false, orch_c6b) ∧
    express_interest orch_c6b "sel" "LA" = (false, orch_c6b) ∧
    express_interest orch_c6b "b1" "LN" = (false, orch_c6b) ∧
    express_interest orch_c6b "b1" "LA" = (false, orch_c6b) ∧
    start_negotiation orch_c6b "n9" "b1" "LA" = (none, orch_c6b) ∧
    start_negotiation orch_c6b "n9" "ghost" "LA" = (none, orch_c6b) ∧
    start_negotiation orch_c6b "n9" "b1" "LX" = (none, orch_c6b) ∧
    start_negotiation orch_c6b "n9" "b1" "LN" = (none, orch_c6b) ∧
    confirm_deal orch_c6b "stranger" "dx" true = (false, orch_c6b) ∧
    confirm_deal orch_c6b "stranger" "d1" true = (false, orch_c6b) := by
  have h := c6_validation_results orch_c6b "ghost" "b1" "ghost" "LX" "b1" "sel" "LA" "LN"
    "n9" "dx" "d1" "stranger" user_buyer1 user_buyer1 user_seller1 listing_active_c6
    listing_inactive_c6 deal_d1 item1000 1000 550 7 true
    rfl rfl (by decide) rfl rfl rfl rfl rfl (by decide) rfl rfl rfl rfl (by decide)
    rfl rfl (by decide) (by decide)
  exact ⟨h.1, h.2.1, h.2.2.1, h.2.2.2.1, h.2.2.2.2.1, h.2.2.2.2.2.1, h.2.2.2.2.2.2.1,
    h.2.2.2.2.2.2.2.1 (by decide), h.2.2.2.2.2.2.2.2.1, h.2.2.2.2.2.2.2.2.2.1,
    h.2.2.2.2.2.2.2.2.2.2.1, h.2.2.2.2.2.2.2.2.2.2.2.2.1, h.2.2.2.2.2.2.2.2.2.2.2.2.2⟩
